import Mathlib

/-!
Verification development for the quell repository (Source-engine asset
pipeline): the `vmt` crate (shader-text parser, include/patch resolution)
and the `quell` crate (VPK lookup layer, material/texture resolver cache,
bulk loader, displacement mesh reconstruction).

Modelling conventions:
* Rust byte strings (`&[u8]`) are modelled as `List Char` of ASCII
  characters; UTF-8 decoding of such data always succeeds, so the
  `Utf8Parse` error arm of the source is never produced by the model.
* `f32` values are modelled as exact rationals `ℚ`; the source's float
  parsing is modelled for plain decimal notation.
* Rust `HashMap` is modelled as an association list whose `insert`
  replaces an existing binding in place (or appends a fresh one).
* `panic!`/`unwrap`/`unreachable!` aborts in the source are modelled as a
  distinguished `PRes.panicked` outcome carrying a `PanicTag`.
-/

namespace Quell

/-- A Rust byte string, restricted to ASCII. -/
abbrev BStr := List Char

/-- `u8::is_ascii_whitespace`: space, tab, newline, form feed, carriage return. -/
def isWs (c : Char) : Bool :=
  c = ' ' || c = '\t' || c = '\n' || c = '\x0c' || c = '\r'

/-- `u8::is_ascii_uppercase`. -/
def isAsciiUpper (c : Char) : Bool :=
  'A' ≤ c && c ≤ 'Z'

/-- `u8::to_ascii_lowercase` on one byte. -/
def asciiLower (c : Char) : Char :=
  if isAsciiUpper c then Char.ofNat (c.toNat + 32) else c

/-- `<[u8]>::to_ascii_lowercase`. -/
def lowerStr (s : BStr) : BStr := s.map asciiLower

/-- `<[u8]>::eq_ignore_ascii_case`. -/
def eqIgnoreCase (a b : BStr) : Bool :=
  lowerStr a = lowerStr b

/-- Association-list lookup keyed by exact equality (Rust `HashMap::get`). -/
def alGet {α : Type} : List (BStr × α) → BStr → Option α
  | [], _ => none
  | (k0, v0) :: rest, k => if k0 = k then some v0 else alGet rest k

/-- Association-list insert that replaces an existing binding in place
(Rust `HashMap::insert`). -/
def alInsert {α : Type} (m : List (BStr × α)) (k : BStr) (v : α) :
    List (BStr × α) :=
  match m with
  | [] => [(k, v)]
  | (k', v') :: rest =>
    if k' = k then (k, v) :: rest else (k', v') :: alInsert rest k v

/-- Whether a key is bound (Rust `HashMap::contains_key` / entry present). -/
def alHas {α : Type} (m : List (BStr × α)) (k : BStr) : Bool :=
  (alGet m k).isSome

/-- Tags for the `panic!`/`unwrap`/`unreachable!` aborts in the source. -/
inductive PanicTag : Type where
  /-- `ShaderName::from`: `panic!("Unknown shader name: ...")` (vmt/src/lib.rs:124). -/
  | unknownShaderName
  /-- `VMT::from_bytes` sub walk hit a `VMTSub::Val` where a sub-tree was
  expected: `unreachable!()` (vmt/src/lib.rs:370,457). -/
  | subWalkVal
  /-- `sub_path[sub_depth]` with `sub_depth >= 16`: index out of bounds
  (vmt/src/lib.rs:443). -/
  | subDepthOverflow
  /-- `sub_depth -= 1` on `usize` 0: overflow abort (vmt/src/lib.rs:462). -/
  | subDepthUnderflow
  /-- `construct_material_info*`: `panic!("Could not find water texture ...")`. -/
  | noWaterTexture
  /-- `construct_material_info*`: `panic!("Could not find base texture ...")`. -/
  | noBaseTexture
  /-- `loaded_textures.vtf.get(..).unwrap()` on a missing texture entry
  (quell/src/material.rs:214-218, quell/src/data.rs:247). -/
  | vtfEntryMissing
  /-- `find_material_mut(..).unwrap()` on a missing material entry. -/
  | matEntryMissing
  /-- `create_displacement_mesh`: `panic!("Bad displacement!")` when the
  face does not have exactly 4 edges (quell/src/mesh.rs:321-323). -/
  | badDisplacement
  /-- `bsp.displacement_vertices.get(..).unwrap()` out of bounds. -/
  | dispVertexMissing
  /-- `VMT::from_bytes`: `unreachable!()` on a second `ShaderName` item
  (vmt/src/lib.rs:354). -/
  | unreachableItem
  /-- `find_texture_data`/`find_texture`: `panic!("Failed to find texture ...")`
  when no vpk matches and no map is loaded (quell/src/data.rs:810,838). -/
  | findTextureNoMap
  /-- Model artifact, not a source abort: the item iterator was run with
  insufficient fuel.  Each emitted item consumes at least one input byte,
  so the `length + 1` fuel used by `VMT.fromBytes` never reaches this. -/
  | modelFuelExhausted
deriving DecidableEq, Repr

/-- Outcome of running a piece of Rust code that may return normally,
return an error, or abort the process. -/
inductive PRes (ε α : Type) : Type where
  | ok (a : α)
  | err (e : ε)
  | panicked (tag : PanicTag)
deriving DecidableEq, Repr

namespace PRes

def isOk {ε α : Type} : PRes ε α → Bool
  | .ok _ => true
  | _ => false

def bind {ε α β : Type} : PRes ε α → (α → PRes ε β) → PRes ε β
  | .ok a, f => f a
  | .err e, _ => .err e
  | .panicked t, _ => .panicked t

def map {ε α β : Type} (f : α → β) : PRes ε α → PRes ε β
  | .ok a => .ok (f a)
  | .err e => .err e
  | .panicked t => .panicked t

end PRes

/-! ## vmt crate: `ShaderName` (vmt/src/lib.rs:88-160) -/

/-- `ShaderName<'a>`: a small set of well-known shader identifiers or an
arbitrary string. -/
inductive ShaderName : Type where
  | str (s : BStr)
  | lightmappedGeneric
  | unlitGeneric
  | vertexLitGeneric
  | water
  | patch
deriving DecidableEq, Repr

namespace ShaderName

/-- `ShaderName::as_bytes`. -/
def asBytes : ShaderName → BStr
  | .str s => s
  | .lightmappedGeneric => "LightmappedGeneric".toList
  | .unlitGeneric => "UnlitGeneric".toList
  | .vertexLitGeneric => "VertexLitGeneric".toList
  | .water => "Water".toList
  | .patch => "Patch".toList

/-- `impl From<&[u8]> for ShaderName` (vmt/src/lib.rs:110-128).  The
source `panic!`s on a byte string that matches none of the five known
identifiers; the line constructing `ShaderName::String` right after the
panic is dead code. -/
def fromBytes (s : BStr) : PRes Empty ShaderName :=
  if eqIgnoreCase s ("LightmappedGeneric".toList) then .ok .lightmappedGeneric
  else if eqIgnoreCase s ("UnlitGeneric".toList) then .ok .unlitGeneric
  else if eqIgnoreCase s ("VertexLitGeneric".toList) then .ok .vertexLitGeneric
  else if eqIgnoreCase s ("Water".toList) then .ok .water
  else if eqIgnoreCase s ("Patch".toList) then .ok .patch
  else .panicked .unknownShaderName

/-- What the dead line after the panic would return: the intended total
conversion, kept here for stating what the spec describes. -/
def fromBytesSpec (s : BStr) : ShaderName :=
  if eqIgnoreCase s ("LightmappedGeneric".toList) then .lightmappedGeneric
  else if eqIgnoreCase s ("UnlitGeneric".toList) then .unlitGeneric
  else if eqIgnoreCase s ("VertexLitGeneric".toList) then .vertexLitGeneric
  else if eqIgnoreCase s ("Water".toList) then .water
  else if eqIgnoreCase s ("Patch".toList) then .patch
  else .str s

/-- `impl PartialEq for ShaderName` (vmt/src/lib.rs:129-143). -/
def beq (a b : ShaderName) : Bool :=
  match a, b with
  | .str x, .str y => eqIgnoreCase x y
  | .lightmappedGeneric, .lightmappedGeneric => true
  | .unlitGeneric, .unlitGeneric => true
  | .vertexLitGeneric, .vertexLitGeneric => true
  | .water, .water => true
  | .patch, .patch => true
  | .str x, b => eqIgnoreCase x b.asBytes
  | a, .str y => eqIgnoreCase a.asBytes y
  | _, _ => false

end ShaderName

/-! ## vmt crate: errors and value parsing -/

/-- `VMTError<E>` (vmt/src/lib.rs:13-31).  The UTF-8/float/int/bool arms
wrap a standard-library conversion failure; the model only records which
kind failed. -/
inductive VMTError (ε : Type) : Type where
  | missingShaderName
  | noStringStart
  | noStringEnd
  | expectedChar (c : Char)
  | unexpectedEof
  | invalidBlendMode (n : ℕ)
  | utf8Parse
  | floatParse
  | intParse
  | boolParse
  | other (e : ε)
deriving DecidableEq, Repr

/-- `DetailBlendMode` (vmt/src/lib.rs:163-199): 12 named variants 0-11. -/
inductive DetailBlendMode : Type where
  | decalModulate
  | additive
  | translucentDetail
  | blendActorFade
  | translucentBase
  | unlitAdditive
  | unlitAdditiveThresholdFade
  | twoPatternDecalModulate
  | multiply
  | baseMaskDetailAlpha
  | selfShadowedBumpmap
  | selfShadowedBumpmapAlbedo
deriving DecidableEq, Repr

/-- `impl TryFrom<u8> for DetailBlendMode` (vmt/src/lib.rs:200-220). -/
def DetailBlendMode.tryFrom (n : ℕ) : Option DetailBlendMode :=
  match n with
  | 0 => some .decalModulate
  | 1 => some .additive
  | 2 => some .translucentDetail
  | 3 => some .blendActorFade
  | 4 => some .translucentBase
  | 5 => some .unlitAdditive
  | 6 => some .unlitAdditiveThresholdFade
  | 7 => some .twoPatternDecalModulate
  | 8 => some .multiply
  | 9 => some .baseMaskDetailAlpha
  | 10 => some .selfShadowedBumpmap
  | 11 => some .selfShadowedBumpmapAlbedo
  | _ => none

def isDigit (c : Char) : Bool := '0' ≤ c && c ≤ '9'

def digitsToNat (s : BStr) : ℕ :=
  s.foldl (fun acc c => acc * 10 + (c.toNat - '0'.toNat)) 0

/-- `str::parse::<u32>()`: optional `+`, then at least one digit, nothing
else.  (Overflow of the 32-bit range is not exercised by any claim.) -/
def parseNatRust (s : BStr) : Option ℕ :=
  let s := match s with | '+' :: r => r | r => r
  if s.isEmpty || s.any (fun c => !isDigit c) then none
  else some (digitsToNat s)

/-- `str::parse::<bool>()`: exactly `true` or `false`. -/
def parseBoolRust (s : BStr) : Option Bool :=
  if s = "true".toList then some true
  else if s = "false".toList then some false
  else none

/-- `str::parse::<f32>()`, modelled exactly over `ℚ` for plain decimal
notation `[+|-] digits [. digits] [(e|E) [+|-] digits]` with at least one
mantissa digit.  (The source's float values are `f32`; no claim depends on
rounding, so values are kept exact.) -/
def parseRat (s : BStr) : Option ℚ :=
  let (sign, s) : ℚ × BStr :=
    match s with
    | '+' :: r => (1, r)
    | '-' :: r => (-1, r)
    | r => (1, r)
  let d1 := s.takeWhile isDigit
  let s := s.dropWhile isDigit
  let (d2, s) : BStr × BStr :=
    match s with
    | '.' :: r => (r.takeWhile isDigit, r.dropWhile isDigit)
    | r => ([], r)
  if d1.isEmpty && d2.isEmpty then none
  else
    let mant : ℚ := (digitsToNat (d1 ++ d2) : ℚ) / ((10 : ℚ) ^ d2.length)
    match s with
    | [] => some (sign * mant)
    | e :: r =>
      if e = 'e' || e = 'E' then
        let (esign, r) : ℤ × BStr :=
          match r with
          | '+' :: r2 => (1, r2)
          | '-' :: r2 => (-1, r2)
          | r2 => (1, r2)
        if r.isEmpty || r.any (fun c => !isDigit c) then none
        else some (sign * mant * (10 : ℚ) ^ (esign * (digitsToNat r : ℤ)))
      else none

/-! ## vmt crate: the `VMT` document (vmt/src/lib.rs:225-256) -/

/-- One value of the recursive `sub` tree: a leaf string or a nested
sub-tree (`VMTSub`, vmt/src/lib.rs:524-528). -/
inductive VMTSub : Type where
  | val (s : BStr)
  | sub (entries : List (BStr × VMTSub))

abbrev VMTSubs := List (BStr × VMTSub)

/-- `VMTDetail` (vmt/src/lib.rs:575-585). -/
structure VMTDetail : Type where
  texture : Option BStr := none
  tint : Option (ℚ × ℚ × ℚ) := none
  frame : Option ℕ := none
  scale : Option ℚ := none
  alphaMaskBaseTexture : Option Bool := none
  blendMode : Option DetailBlendMode := none
  blendFactor : Option ℚ := none
deriving DecidableEq, Repr

/-- `VMTDetail2` (vmt/src/lib.rs:603-611). -/
structure VMTDetail2 : Type where
  texture : Option BStr := none
  scale : Option ℚ := none
  blendFactor : Option ℚ := none
  frame : Option ℕ := none
  tint : Option (ℚ × ℚ × ℚ) := none
deriving DecidableEq, Repr

/-- `VMT<'a>` (vmt/src/lib.rs:225-256).  The Rust field `include` is a
Lean keyword and is named `includePath` here. -/
structure VMT : Type where
  shaderName : ShaderName := .lightmappedGeneric
  baseTexture : Option BStr := none
  decal : Option Bool := none
  surfaceProp : Option BStr := none
  detail : VMTDetail := {}
  detail2 : VMTDetail2 := {}
  baseTextureTransform : Option BStr := none
  color : Option (ℚ × ℚ × ℚ) := none
  phong : Option ℚ := none
  phongBoost : Option ℚ := none
  phongExponent : Option ℚ := none
  phongFresnelRanges : Option (ℚ × ℚ × ℚ) := none
  lightwarpTexture : Option BStr := none
  keywords : Option BStr := none
  includePath : Option BStr := none
  other : List (BStr × BStr) := []
  sub : VMTSubs := []

/-- `vmt::util::apply` (vmt/src/util.rs:3-9): the overlay value `b` wins
whenever it is set. -/
def applyOpt {α : Type} (a b : Option α) : Option α :=
  match b with
  | some x => some x
  | none => a

/-- `VMTDetail::apply` (vmt/src/lib.rs:586-601). -/
def VMTDetail.apply (s : VMTDetail) (o : VMTDetail) : VMTDetail where
  texture := applyOpt s.texture o.texture
  tint := applyOpt s.tint o.tint
  frame := applyOpt s.frame o.frame
  scale := applyOpt s.scale o.scale
  alphaMaskBaseTexture := applyOpt s.alphaMaskBaseTexture o.alphaMaskBaseTexture
  blendMode := applyOpt s.blendMode o.blendMode
  blendFactor := applyOpt s.blendFactor o.blendFactor

/-- `VMTDetail2::apply` (vmt/src/lib.rs:612-625). -/
def VMTDetail2.apply (s : VMTDetail2) (o : VMTDetail2) : VMTDetail2 where
  texture := applyOpt s.texture o.texture
  scale := applyOpt s.scale o.scale
  blendFactor := applyOpt s.blendFactor o.blendFactor
  frame := applyOpt s.frame o.frame
  tint := applyOpt s.tint o.tint

/-- `VMTSubs::apply` (vmt/src/lib.rs:498-505): the source deliberately
does not merge sub trees and keeps `self` (the base document's subs). -/
def subsApply (s : VMTSubs) (_o : VMTSubs) : VMTSubs := s

/-- `HashMap::extend` over the `other` bag: every binding of `o` is
inserted into `s`, overwriting on key collision. -/
def alExtend (s o : List (BStr × BStr)) : List (BStr × BStr) :=
  o.foldl (fun acc p => alInsert acc p.1 p.2) s

/-- `VMT::apply` (vmt/src/lib.rs:257-289): apply the overlay `o` on top
of `s`, `o`'s set fields winning; the shader name is kept from `s`; the
`other` bag is extended with `o`'s entries; sub trees are not merged. -/
def VMT.apply (s : VMT) (o : VMT) : VMT where
  shaderName := s.shaderName
  baseTexture := applyOpt s.baseTexture o.baseTexture
  decal := applyOpt s.decal o.decal
  surfaceProp := applyOpt s.surfaceProp o.surfaceProp
  detail := s.detail.apply o.detail
  detail2 := s.detail2.apply o.detail2
  baseTextureTransform := applyOpt s.baseTextureTransform o.baseTextureTransform
  color := applyOpt s.color o.color
  phong := applyOpt s.phong o.phong
  phongBoost := applyOpt s.phongBoost o.phongBoost
  phongExponent := applyOpt s.phongExponent o.phongExponent
  phongFresnelRanges := applyOpt s.phongFresnelRanges o.phongFresnelRanges
  lightwarpTexture := applyOpt s.lightwarpTexture o.lightwarpTexture
  keywords := applyOpt s.keywords o.keywords
  includePath := applyOpt s.includePath o.includePath
  other := alExtend s.other o.other
  sub := subsApply s.sub o.sub

/-- `VMT::resolve` (vmt/src/lib.rs:293-317): load the include target,
apply the current document on top of it, and clear the resulting
`include` only when the loaded parent had no `include` of its own. -/
def VMT.resolve {ε : Type} (load : BStr → Except ε VMT) (v : VMT) :
    Except (VMTError ε) VMT :=
  match v.includePath with
  | none => .ok v
  | some inc =>
    match load inc with
    | .error e => .error (.other e)
    | .ok parent =>
      let hasInclude := parent.includePath.isSome
      let merged := parent.apply v
      let merged := if hasInclude then merged else { merged with includePath := none }
      .ok merged

/-- `VMT::resolve_recurse` (vmt/src/lib.rs:319-335), with explicit fuel:
the source loops `vmt = vmt.resolve(load)?` until no include remains and
has no other exit, so a run that does not reach an include-free document
within the given fuel is reported as `none`. -/
def VMT.resolveRecurseFuel {ε : Type} (load : BStr → Except ε VMT) :
    ℕ → VMT → Except (VMTError ε) (Option VMT)
  | 0, _ => .ok none
  | n + 1, v =>
    match v.resolve load with
    | .error e => .error e
    | .ok v' =>
      if v'.includePath.isNone then .ok (some v')
      else VMT.resolveRecurseFuel load n v'

/-! ## vmt crate: parsing (vmt/src/parse.rs, vmt/src/lib.rs:627-821) -/

/-- `parse::take_whitespace` (vmt/src/parse.rs:75-82); the source wraps
the result in `Ok` but never errors. -/
def takeWhitespace (b : BStr) : BStr := b.dropWhile isWs

/-- `parse::expect_char` (vmt/src/parse.rs:63-73). -/
def expectChar (b : BStr) (c : Char) : Except (VMTError Unit) BStr :=
  match b with
  | [] => .error (.expectedChar c)
  | x :: r => if x = c then .ok r else .error (.expectedChar c)

/-- `parse::take_str` (vmt/src/parse.rs:102-117): a double-quoted string;
returns (remaining bytes, contents). -/
def takeStr (b : BStr) : Except (VMTError Unit) (BStr × BStr) :=
  match b with
  | '"' :: r =>
    match r.findIdx? (fun c => c = '"') with
    | none => .error .noStringEnd
    | some i => .ok (r.drop (i + 1), r.take i)
  | _ => .error .noStringStart

/-- `parse::take_text` (vmt/src/parse.rs:86-99): a quoted string or a
bare whitespace-delimited word (possibly empty at end of input). -/
def takeText (b : BStr) : Except (VMTError Unit) (BStr × BStr) :=
  match b with
  | '"' :: _ => takeStr b
  | _ => .ok (b.dropWhile (fun c => !isWs c), b.takeWhile (fun c => !isWs c))

/-- `parse::take_vec3` (vmt/src/parse.rs:135-151): text like
`[ 0.4 0.3 0.2 ]`. -/
def takeVec3 (bytes : BStr) : Except (VMTError Unit) (BStr × (ℚ × ℚ × ℚ)) := do
  let b ← expectChar bytes '['
  let b := takeWhitespace b
  let (b, x) ← takeText b
  let b := takeWhitespace b
  let (b, y) ← takeText b
  let b := takeWhitespace b
  let (b, z) ← takeText b
  let b := takeWhitespace b
  let b ← expectChar b ']'
  match parseRat x, parseRat y, parseRat z with
  | some x, some y, some z => .ok (b, (x, y, z))
  | _, _, _ => .error .floatParse

/-- `VMTItem<'a>` (vmt/src/lib.rs:627-640). -/
inductive VMTItem : Type where
  | shaderName (s : ShaderName)
  | keyValue (k v : BStr)
  | keySub (k : BStr)
  | endSub
  | comment (c : BStr)
deriving DecidableEq, Repr

/-- State of the `vmt_from_bytes` iterator closure (vmt/src/lib.rs:755-814):
remaining bytes, whether the opening brace is still to be consumed, and
the current sub-block depth. -/
structure IterSt : Type where
  b : BStr
  isFirst : Bool
  subDepth : ℕ
deriving DecidableEq, Repr

/-- One step of the `vmt_from_bytes` item iterator (vmt/src/lib.rs:758-814).
`none` means the top-level closing brace was reached: the source then
stops without checking for trailing bytes (the `TODO` at lib.rs:772). -/
def vmtNext (st : IterSt) : Except (VMTError Unit) (Option (VMTItem × IterSt)) := do
  let b ←
    if st.isFirst then expectChar (takeWhitespace st.b) '{'
    else .ok st.b
  let b := takeWhitespace b
  match b with
  | '}' :: rest =>
    if st.subDepth = 0 then .ok none
    else .ok (some (.endSub, ⟨rest, false, st.subDepth - 1⟩))
  | [] => .error .unexpectedEof
  | '/' :: '/' :: _ =>
    let i := (b.findIdx? (fun c => c = '\n')).getD b.length
    .ok (some (.comment (b.take i), ⟨b.drop i, false, st.subDepth⟩))
  | b => do
    let (b2, key) ← takeText b
    let b3 := takeWhitespace b2
    match b3 with
    | '{' :: rest => .ok (some (.keySub key, ⟨rest, false, st.subDepth + 1⟩))
    | b3 => do
      let (b4, val) ← takeText b3
      .ok (some (.keyValue key val, ⟨b4, false, st.subDepth⟩))

/-- Run the item iterator to completion, collecting the items.  Fuel is
an explicit bound on the number of steps; every produced item consumes at
least one byte, so `length + 1` fuel suffices (see
`PanicTag.modelFuelExhausted`). -/
def vmtItemsFuel : ℕ → IterSt → PRes (VMTError Unit) (List VMTItem)
  | 0, _ => .panicked .modelFuelExhausted
  | n + 1, st =>
    match vmtNext st with
    | .error e => .err e
    | .ok none => .ok []
    | .ok (some (it, st')) => (vmtItemsFuel n st').map (fun rest => it :: rest)

/-! ## vmt crate: `VMT::from_bytes` (vmt/src/lib.rs:337-470) -/

/-- Walk the `sub` tree along a path of (already lowercased) block names,
materializing empty sub-trees with `or_insert` as the source loop does
(vmt/src/lib.rs:360-372, 446-459); hitting a `Val` on the way is the
source's `unreachable!()`. -/
def subsEnsure : VMTSubs → List BStr → PRes (VMTError Unit) VMTSubs
  | subs, [] => .ok subs
  | subs, name :: rest =>
    match alGet subs name with
    | none => (subsEnsure [] rest).map (fun inner => alInsert subs name (.sub inner))
    | some (.sub s) => (subsEnsure s rest).map (fun inner => alInsert subs name (.sub inner))
    | some (.val _) => .panicked .subWalkVal

/-- Walk the `sub` tree along a path and insert a leaf value at a
(already lowercased) key (vmt/src/lib.rs:360-375). -/
def subsInsertVal : VMTSubs → List BStr → BStr → BStr → PRes (VMTError Unit) VMTSubs
  | subs, [], key, v => .ok (alInsert subs key (.val v))
  | subs, name :: rest, key, v =>
    match alGet subs name with
    | none => (subsInsertVal [] rest key v).map (fun inner => alInsert subs name (.sub inner))
    | some (.sub s) => (subsInsertVal s rest key v).map (fun inner => alInsert subs name (.sub inner))
    | some (.val _) => .panicked .subWalkVal

/-- The recognized-key dispatch of `VMT::from_bytes`
(vmt/src/lib.rs:378-439): the source's if-else-if chain of
`eq_ignore_ascii_case` tests is an ordered first-match dispatch over the
recognized keys; it is modelled as a `find?` over the (key, action)
table in source order.  In the ASCII model UTF-8 decoding of the value
always succeeds. -/
def recognizedActions : List (BStr × (VMT → BStr → Except (VMTError Unit) VMT)) :=
  [("$basetexture".toList, fun v val => .ok { v with baseTexture := some val }),
   ("%keywords".toList, fun v val => .ok { v with keywords := some val }),
   ("$detail".toList, fun v val =>
     .ok { v with detail := { v.detail with texture := some val } }),
   ("$detailscale".toList, fun v val =>
     match parseRat val with
     | some q => .ok { v with detail := { v.detail with scale := some q } }
     | none => .error .floatParse),
   ("$detailblendmode".toList, fun v val =>
     match parseNatRust val with
     | none => .error .intParse
     | some n =>
       if n > 255 then .error .intParse
       else
         match DetailBlendMode.tryFrom n with
         | some m => .ok { v with detail := { v.detail with blendMode := some m } }
         | none => .error (.invalidBlendMode n)),
   ("$detailblendfactor".toList, fun v val =>
     match parseRat val with
     | some q => .ok { v with detail := { v.detail with blendFactor := some q } }
     | none => .error .floatParse),
   ("$surfaceprop".toList, fun v val => .ok { v with surfaceProp := some val }),
   ("$decal".toList, fun v val =>
     match parseBoolRust val with
     | some bl => .ok { v with decal := some bl }
     | none => .error .boolParse),
   ("$basetexturetransform".toList, fun v val =>
     .ok { v with baseTextureTransform := some val }),
   ("$color".toList, fun v val =>
     match takeVec3 val with
     | .ok (_, c) => .ok { v with color := some c }
     | .error e => .error e),
   ("$detailtint".toList, fun v val =>
     match takeVec3 val with
     | .ok (_, c) => .ok { v with detail := { v.detail with tint := some c } }
     | .error e => .error e),
   ("$detailframe".toList, fun v val =>
     match parseNatRust val with
     | some n => .ok { v with detail := { v.detail with frame := some n } }
     | none => .error .intParse),
   ("$detailalphamaskbasetexture".toList, fun v val =>
     match parseBoolRust val with
     | some bl => .ok { v with detail := { v.detail with alphaMaskBaseTexture := some bl } }
     | none => .error .boolParse),
   ("$detail2".toList, fun v val =>
     .ok { v with detail2 := { v.detail2 with texture := some val } }),
   ("$detailscale2".toList, fun v val =>
     match parseRat val with
     | some q => .ok { v with detail2 := { v.detail2 with scale := some q } }
     | none => .error .floatParse),
   ("$detailblendfactor2".toList, fun v val =>
     match parseRat val with
     | some q => .ok { v with detail2 := { v.detail2 with blendFactor := some q } }
     | none => .error .floatParse),
   ("$detailframe2".toList, fun v val =>
     match parseNatRust val with
     | some n => .ok { v with detail2 := { v.detail2 with frame := some n } }
     | none => .error .intParse),
   ("$detailtint2".toList, fun v val =>
     match takeVec3 val with
     | .ok (_, c) => .ok { v with detail2 := { v.detail2 with tint := some c } }
     | .error e => .error e),
   ("$phong".toList, fun v val =>
     match parseRat val with
     | some q => .ok { v with phong := some q }
     | none => .error .floatParse),
   ("$phongboost".toList, fun v val =>
     match parseRat val with
     | some q => .ok { v with phongBoost := some q }
     | none => .error .floatParse),
   ("$phongexponent".toList, fun v val =>
     match parseRat val with
     | some q => .ok { v with phongExponent := some q }
     | none => .error .floatParse),
   ("$phongfresnelranges".toList, fun v val =>
     match takeVec3 val with
     | .ok (_, c) => .ok { v with phongFresnelRanges := some c }
     | .error e => .error e),
   ("$lightwarptexture".toList, fun v val => .ok { v with lightwarpTexture := some val }),
   ("include".toList, fun v val => .ok { v with includePath := some val })]

/-- Process one key/value through the recognized-key dispatch; an
unrecognized key goes into the `other` bag with lowercased key
(vmt/src/lib.rs:434-439). -/
def procKeyValue (v : VMT) (k val : BStr) : Except (VMTError Unit) VMT :=
  match recognizedActions.find? (fun p => eqIgnoreCase k p.1) with
  | some p => p.2 v val
  | none => .ok { v with other := alInsert v.other (lowerStr k) val }

/-- Fold state of `VMT::from_bytes` (vmt/src/lib.rs:347-350): the
document under construction and the active sub-block path.  The source
keeps `sub_depth` and a 16-slot `sub_path` array whose first `sub_depth`
entries are the active path; here `subPath` is exactly that active
prefix (so `sub_depth = subPath.length`). -/
structure ProcSt : Type where
  vmt : VMT
  subPath : List BStr

/-- Processing of one `VMTItem` in the `VMT::from_bytes` loop
(vmt/src/lib.rs:351-467).  A `KeyValue` inside a sub block is inserted
into the sub tree and then still flows through the recognized-key chain,
which assigns top-level fields (or the `other` bag). -/
def procItem (st : ProcSt) (it : VMTItem) : PRes (VMTError Unit) ProcSt :=
  match it with
  | .shaderName _ => .panicked .unreachableItem
  | .comment _ => .ok st
  | .endSub =>
    match st.subPath with
    | [] => .panicked .subDepthUnderflow
    | _ => .ok { st with subPath := st.subPath.dropLast }
  | .keySub name =>
    if 16 ≤ st.subPath.length then .panicked .subDepthOverflow
    else
      let p := st.subPath ++ [lowerStr name]
      (subsEnsure st.vmt.sub p).map
        (fun s => { vmt := { st.vmt with sub := s }, subPath := p })
  | .keyValue k val =>
    let withSub : PRes (VMTError Unit) VMT :=
      if st.subPath.isEmpty then .ok st.vmt
      else
        (subsInsertVal st.vmt.sub st.subPath (lowerStr k) val).map
          (fun s => { st.vmt with sub := s })
    withSub.bind fun v =>
      match procKeyValue v k val with
      | .ok v' => .ok { st with vmt := v' }
      | .error e => .err e

/-- The `for v in iter` loop of `VMT::from_bytes` over a collected item
list. -/
def procList (st : ProcSt) : List VMTItem → PRes (VMTError Unit) ProcSt
  | [] => .ok st
  | it :: rest => (procItem st it).bind (fun st' => procList st' rest)

/-- `VMT::from_bytes` (vmt/src/lib.rs:337-470): parse the shader name
(which aborts on an unknown identifier, see `ShaderName.fromBytes`), then
fold the item iterator into a `VMT`. -/
def VMT.fromBytes (bytes : BStr) : PRes (VMTError Unit) VMT :=
  match takeText bytes with
  | .error e => .err e
  | .ok (rest, name) =>
    match ShaderName.fromBytes name with
    | .panicked t => .panicked t
    | .err e => e.elim
    | .ok sn =>
      match vmtItemsFuel (rest.length + 1) ⟨rest, true, 0⟩ with
      | .panicked t => .panicked t
      | .err e => .err e
      | .ok items => (procList ⟨{ shaderName := sn }, []⟩ items).map (fun st => st.vmt)

/-! ## quell crate: data.rs — sources, errors, VPK lookup -/

/-- `VPKSrc` (quell/src/data.rs:26-36). -/
inductive VPKSrc : Type where
  | hl2Textures
  | hl2Misc
  | texturesVPK
  | miscVPK
deriving DecidableEq, Repr

/-- `LSrc` (quell/src/data.rs:38-47). -/
inductive LSrc : Type where
  | vpk (src : VPKSrc)
  | map
deriving DecidableEq, Repr

/-- `TextureError` (quell/src/data.rs:91-100).  The wrapped `vpk::Error`,
`vtf::Error` and `std::io::Error` payloads are external and carried as
bare tags. -/
inductive TextureError : Type where
  | notLoaded
  | findFailure (name : BStr)
  | frozen
  | vpkErr
  | vtfErr
  | ioErr
deriving DecidableEq, Repr

/-- `MaterialError` (quell/src/data.rs:52-61). -/
inductive MaterialError : Type where
  | findFailure (name : BStr)
  | frozen
  | vmt (e : VMTError Unit)
  | texture (e : TextureError)
  | ioErr
deriving DecidableEq, Repr

/-- One entry of a loaded VPK directory index.  `bytes` stands for the
data this entry would materialize via `VPKEntryHandle::get`; lookup never
touches it. -/
structure VPKEntry : Type where
  ext : BStr
  dir : BStr
  filename : BStr
  archiveIndex : ℕ
  bytes : BStr
deriving DecidableEq, Repr

/-- `VpkData` (quell/src/data.rs:734-781): one loaded package index. -/
structure VpkData : Type where
  entries : List VPKEntry

/-- Modelled from the spec: the external vpk crate's
`VPK::get_ignore_case` (called by `VpkData::find`, quell/src/data.rs:749-756)
— look an entry up by extension + directory + filename, comparing each
component ASCII case-insensitively, returning the first match of the
index. -/
def VpkData.find (d : VpkData) (ext dir filename : BStr) : Option VPKEntry :=
  d.entries.find? fun e =>
    eqIgnoreCase e.ext ext && eqIgnoreCase e.dir dir && eqIgnoreCase e.filename filename

/-- Modelled from the spec: the external vpk crate's
`DirFileBigRefLowercase` lookup (called by `find_vmt_direct` /
`find_texture_direct`, quell/src/data.rs:758-780) — the reference joins a
directory and a (possibly slash-containing) name and compares the full
path ASCII case-insensitively against the entry's directory + filename. -/
def VpkData.findDirect (d : VpkData) (ext dir name : BStr) : Option VPKEntry :=
  d.entries.find? fun e =>
    eqIgnoreCase e.ext ext &&
      eqIgnoreCase (e.dir ++ '/' :: e.filename) (dir ++ '/' :: name)

/-- `VpkState` (quell/src/data.rs:558-565): the four loaded indexes. -/
structure VpkState : Type where
  hl2Textures : VpkData
  hl2Misc : VpkData
  textures : VpkData
  misc : VpkData

/-- `VpkState::find` (quell/src/data.rs:653-676): probe the four indexes
in the fixed priority order and return the first match. -/
def VpkState.find (s : VpkState) (ext dir filename : BStr) :
    Option (VPKEntry × VPKSrc) :=
  match s.hl2Textures.find ext dir filename with
  | some e => some (e, .hl2Textures)
  | none =>
  match s.hl2Misc.find ext dir filename with
  | some e => some (e, .hl2Misc)
  | none =>
  match s.textures.find ext dir filename with
  | some e => some (e, .texturesVPK)
  | none =>
  match s.misc.find ext dir filename with
  | some e => some (e, .miscVPK)
  | none => none

/-- `str::strip_prefix(p).unwrap_or(name)`: drop a leading pattern when
present. -/
def dropPre (p s : BStr) : BStr :=
  if p.isPrefixOf s then s.drop p.length else s

/-- `str::strip_suffix(p).unwrap_or(name)`: drop a trailing pattern when
present. -/
def dropSuf (p s : BStr) : BStr :=
  if p.isSuffixOf s then s.take (s.length - p.length) else s

/-- `VpkState::find_vmt` (quell/src/data.rs:678-701): normalize the name
(strip a `materials/` front part and a `.vmt` ending), then probe the
four indexes with the lowercased-path reference in priority order. -/
def VpkState.findVmt (s : VpkState) (name : BStr) : Option (VPKEntry × VPKSrc) :=
  let name := dropPre ("materials/".toList) name
  let name := dropSuf (".vmt".toList) name
  match s.hl2Textures.findDirect ("vmt".toList) ("materials".toList) name with
  | some e => some (e, .hl2Textures)
  | none =>
  match s.hl2Misc.findDirect ("vmt".toList) ("materials".toList) name with
  | some e => some (e, .hl2Misc)
  | none =>
  match s.textures.findDirect ("vmt".toList) ("materials".toList) name with
  | some e => some (e, .texturesVPK)
  | none =>
  match s.misc.findDirect ("vmt".toList) ("materials".toList) name with
  | some e => some (e, .miscVPK)
  | none => none

/-- `VpkState::find_texture` (quell/src/data.rs:703-731): same as
`find_vmt` with `.vtf`. -/
def VpkState.findTexture (s : VpkState) (name : BStr) : Option (VPKEntry × VPKSrc) :=
  let name := dropPre ("materials/".toList) name
  let name := dropSuf (".vtf".toList) name
  match s.hl2Textures.findDirect ("vtf".toList) ("materials".toList) name with
  | some e => some (e, .hl2Textures)
  | none =>
  match s.hl2Misc.findDirect ("vtf".toList) ("materials".toList) name with
  | some e => some (e, .hl2Misc)
  | none =>
  match s.textures.findDirect ("vtf".toList) ("materials".toList) name with
  | some e => some (e, .texturesVPK)
  | none =>
  match s.misc.findDirect ("vtf".toList) ("materials".toList) name with
  | some e => some (e, .miscVPK)
  | none => none

/-! ## quell crate: map.rs — the map's embedded loose-file pack -/

/-- `GameMap` (quell/src/map.rs:11-17); the embedded pack is modelled as
its name → bytes table (`bsp.pack.get` I/O never fails in the model). -/
structure GameMap : Type where
  pack : List (BStr × BStr)

/-- The name normalization shared by the `GameMap` accessors
(quell/src/map.rs:36-44 etc.): keep a full `materials/...x` path, append
the extension when missing, prepend `materials/` when missing. -/
def mapNormalize (ext name : BStr) : BStr :=
  if ("materials/".toList).isPrefixOf name && ext.isSuffixOf name then name
  else if ("materials/".toList).isPrefixOf name then name ++ ext
  else "materials/".toList ++ name ++ ext

/-- `GameMap::find_vmt` (quell/src/map.rs:29-47). -/
def GameMap.findVmt (m : GameMap) (name : BStr) : Option (BStr × LSrc) :=
  (alGet m.pack (mapNormalize (".vmt".toList) name)).map (fun b => (b, .map))

/-- `GameMap::has_texture` (quell/src/map.rs:49-60). -/
def GameMap.hasTexture (m : GameMap) (name : BStr) : Bool :=
  alHas m.pack (mapNormalize (".vtf".toList) name)

/-- `GameMap::get_texture_data` (quell/src/map.rs:64-76). -/
def GameMap.getTextureData (m : GameMap) (name : BStr) : Option BStr :=
  alGet m.pack (mapNormalize (".vtf".toList) name)

/-! ## quell crate: data.rs — the resolver cache -/

/-- The world a resolver call runs against: the loaded archives, the
optional current map, and the external VTF decoder.  `decode` is
modelled from the spec ("decode as the VTF image format into an RGBA8
buffer", an external crate): it maps raw texture bytes to a decoded
image (an opaque id) or a decode error. -/
structure World : Type where
  vpk : VpkState
  map : Option GameMap
  decode : BStr → Except Unit ℕ

/-- Decoded images handed to the renderer (`Assets<Image>`): adding
returns a fresh handle, modelled as the index. -/
abbrev Assets := List ℕ

instance {ε α : Type} [DecidableEq ε] [DecidableEq α] : DecidableEq (Except ε α) :=
  fun a b =>
    match a, b with
    | .ok x, .ok y => if h : x = y then .isTrue (by rw [h]) else .isFalse (by simp [h])
    | .error x, .error y => if h : x = y then .isTrue (by rw [h]) else .isFalse (by simp [h])
    | .ok _, .error _ => .isFalse (by simp)
    | .error _, .ok _ => .isFalse (by simp)

/-- `LMaterial` (quell/src/data.rs:130-135).  The `mat` handle field is
the one `material.rs` writes (`LMaterial { image, mat, vmt_src }`);
`data.rs`'s declaration in this snapshot omits it, the model follows the
constructing code. -/
structure LMaterial : Type where
  image : Except TextureError BStr
  mat : ℕ
  vmtSrc : LSrc
deriving DecidableEq, Repr

/-- `LImage` (quell/src/data.rs:137-141). -/
structure LImage : Type where
  image : ℕ
  src : LSrc
deriving DecidableEq, Repr

/-- `LoadedTextures` (quell/src/data.rs:145-152). -/
structure LoadedTextures : Type where
  missingTexture : ℕ := 0
  vmt : List (BStr × LMaterial) := []
  vtf : List (BStr × LImage) := []
  frozen : Bool := false
deriving DecidableEq, Repr

/-- `LoadedTextures::find_material` (quell/src/data.rs:155-163): linear
scan comparing names ASCII case-insensitively. -/
def LoadedTextures.findMaterial (lt : LoadedTextures) (name : BStr) : Option LMaterial :=
  (lt.vmt.find? (fun p => eqIgnoreCase name p.1)).map Prod.snd

/-- `LoadedTextures::find_texture` (quell/src/data.rs:166-174). -/
def LoadedTextures.findTexture (lt : LoadedTextures) (name : BStr) : Option LImage :=
  (lt.vtf.find? (fun p => eqIgnoreCase name p.1)).map Prod.snd

/-- `LoadedTextures::find_material_texture` (quell/src/data.rs:176-186);
note the `self.vtf.get(name).unwrap()` that aborts when a cached material
names a texture entry that is not cached. -/
def LoadedTextures.findMaterialTexture (lt : LoadedTextures) (name : BStr) :
    Option (PRes TextureError ℕ) :=
  (lt.findMaterial name).map fun lm =>
    match lm.image with
    | .ok tname =>
      match alGet lt.vtf tname with
      | some li => .ok li.image
      | none => .panicked .vtfEntryMissing
    | .error e => .err e

/-- `find_vmt` (quell/src/data.rs:842-859): probe the archives, then the
map's embedded pack; absence in both is `FindFailure`.  (Reading the
matched entry's bytes, an I/O operation, never fails in the model.) -/
def findVmtData (w : World) (name : BStr) : Except MaterialError (BStr × LSrc) :=
  match w.vpk.findVmt name with
  | some (e, src) => .ok (e.bytes, .vpk src)
  | none =>
    match w.map with
    | some m =>
      match m.findVmt name with
      | some (b, src) => .ok (b, src)
      | none => .error (.findFailure name)
    | none => .error (.findFailure name)

/-- `find_texture_data` (quell/src/data.rs:794-812); unlike `find_vmt`,
a missing map `panic!`s. -/
def findTextureData (w : World) (name : BStr) : PRes TextureError (BStr × LSrc) :=
  match w.vpk.findTexture name with
  | some (e, src) => .ok (e.bytes, .vpk src)
  | none =>
    match w.map with
    | some m =>
      match m.getTextureData name with
      | some b => .ok (b, .map)
      | none => .err (.findFailure name)
    | none => .panicked .findTextureNoMap

/-- `load_texture` (the free fn, quell/src/data.rs:783-792): find the
texture bytes and run the external VTF decode. -/
def loadTextureRaw (w : World) (name : BStr) : PRes TextureError (ℕ × LSrc) :=
  (findTextureData w name).bind fun p =>
    match w.decode p.1 with
    | .ok img => .ok (img, p.2)
    | .error _ => .err .vtfErr

/-- `construct_image` (quell/src/data.rs:486-526): the decoded buffer
wrapped as a renderer image; the wrapping adds no data the model keeps. -/
def constructImage (w : World) (name : BStr) : PRes TextureError (ℕ × LSrc) :=
  loadTextureRaw w name

/-- `LoadedTextures::insert_texture_of` (quell/src/data.rs:278-300). -/
def LoadedTextures.insertTextureOf (lt : LoadedTextures) (imgs : Assets)
    (name : BStr) (image : ℕ) (src : LSrc) :
    PRes TextureError BStr × LoadedTextures × Assets :=
  if lt.frozen then (.err .frozen, lt, imgs)
  else
    let handle := imgs.length
    (.ok name, { lt with vtf := alInsert lt.vtf name ⟨handle, src⟩ }, imgs ++ [image])

/-- `LoadedTextures::load_texture` (quell/src/data.rs:260-276): the
frozen check comes first — there is no cache-hit fast path, a frozen
cache refuses the load even for a name already present. -/
def LoadedTextures.loadTexture (lt : LoadedTextures) (w : World) (imgs : Assets)
    (name : BStr) : PRes TextureError Unit × LoadedTextures × Assets :=
  if lt.frozen then (.err .frozen, lt, imgs)
  else
    match constructImage w name with
    | .err e => (.err e, lt, imgs)
    | .panicked t => (.panicked t, lt, imgs)
    | .ok (image, src) =>
      match lt.insertTextureOf imgs name image src with
      | (.ok _, lt2, imgs2) => (.ok (), lt2, imgs2)
      | (.err e, lt2, imgs2) => (.err e, lt2, imgs2)
      | (.panicked t, lt2, imgs2) => (.panicked t, lt2, imgs2)

/-- `LoadingMaterialInfo` (quell/src/data.rs:303-307). -/
structure LoadingMaterialInfo : Type where
  vmtSrc : LSrc
  baseTextureName : BStr
deriving DecidableEq, Repr

/-- Forget the `Other` payload of a `VMTError` (the non-`Other` image of
`VMTError::flip`, vmt/src/lib.rs:33-47). -/
def vmtErrForget {ε : Type} : VMTError ε → VMTError Unit
  | .missingShaderName => .missingShaderName
  | .noStringStart => .noStringStart
  | .noStringEnd => .noStringEnd
  | .expectedChar c => .expectedChar c
  | .unexpectedEof => .unexpectedEof
  | .invalidBlendMode n => .invalidBlendMode n
  | .utf8Parse => .utf8Parse
  | .floatParse => .floatParse
  | .intParse => .intParse
  | .boolParse => .boolParse
  | .other _ => .other ()

/-- `construct_material_info` (quell/src/data.rs:309-350): find the VMT
bytes, parse, resolve at most one include level (the loader re-runs the
same find), then extract the base texture name (`Water` falls back to
`%tooltexture`; absence panics).  The second component counts the
`find_vmt` searches performed, for stating cache-hit properties. -/
def constructMaterialInfo (w : World) (name : BStr) :
    PRes MaterialError LoadingMaterialInfo × ℕ :=
  match findVmtData w name with
  | .error e => (.err e, 1)
  | .ok (bytes, vmtSrc) =>
    match VMT.fromBytes bytes with
    | .err e => (.err (.vmt e), 1)
    | .panicked t => (.panicked t, 1)
    | .ok vmt =>
      let loadFn : BStr → Except (PanicTag ⊕ MaterialError) VMT := fun nm =>
        match findVmtData w nm with
        | .error e => .error (.inr e)
        | .ok (b, _) =>
          match VMT.fromBytes b with
          | .ok v => .ok v
          | .err e => .error (.inr (.vmt e))
          | .panicked t => .error (.inl t)
      let cnt := if vmt.includePath.isSome then 2 else 1
      match vmt.resolve loadFn with
      | .error (.other (.inl t)) => (.panicked t, cnt)
      | .error (.other (.inr e)) => (.err e, cnt)
      | .error e => (.err (.vmt (vmtErrForget e)), cnt)
      | .ok res =>
        match res.shaderName with
        | .water =>
          match res.baseTexture with
          | some bt => (.ok ⟨vmtSrc, lowerStr bt⟩, cnt)
          | none =>
            match alGet res.other ("%tooltexture".toList) with
            | some tt => (.ok ⟨vmtSrc, tt⟩, cnt)
            | none => (.panicked .noWaterTexture, cnt)
        | _ =>
          match res.baseTexture with
          | some bt => (.ok ⟨vmtSrc, lowerStr bt⟩, cnt)
          | none => (.panicked .noBaseTexture, cnt)

/-- `LoadedTextures::load_material_with_info` (quell/src/data.rs:222-251):
insert a `NotLoaded` placeholder, load the texture (an error here leaves
the placeholder cached), then point the material at the loaded texture. -/
def LoadedTextures.loadMaterialWithInfo (lt : LoadedTextures) (w : World)
    (imgs : Assets) (name : BStr) (info : LoadingMaterialInfo) :
    PRes MaterialError ℕ × LoadedTextures × Assets :=
  if lt.frozen then (.err .frozen, lt, imgs)
  else
    let lt1 := { lt with vmt := alInsert lt.vmt name ⟨.error .notLoaded, 0, info.vmtSrc⟩ }
    match lt1.loadTexture w imgs info.baseTextureName with
    | (.err e, lt2, imgs2) => (.err (.texture e), lt2, imgs2)
    | (.panicked t, lt2, imgs2) => (.panicked t, lt2, imgs2)
    | (.ok _, lt2, imgs2) =>
      match alGet lt2.vtf info.baseTextureName with
      | none => (.panicked .vtfEntryMissing, lt2, imgs2)
      | some li =>
        match alGet lt2.vmt name with
        | none => (.panicked .matEntryMissing, lt2, imgs2)
        | some lm =>
          (.ok li.image,
            { lt2 with vmt := alInsert lt2.vmt name { lm with image := .ok info.baseTextureName } },
            imgs2)

/-- `LoadedTextures::load_material` (quell/src/data.rs:200-220): cached
result first (success or cached error), then the frozen gate, then the
full search + parse + texture load.  The last component counts the
`find_vmt` searches performed by the call. -/
def LoadedTextures.loadMaterial (lt : LoadedTextures) (w : World) (imgs : Assets)
    (name : BStr) : PRes MaterialError ℕ × LoadedTextures × Assets × ℕ :=
  match lt.findMaterialTexture name with
  | some r =>
    (match r with
     | .ok h => (.ok h, lt, imgs, 0)
     | .err e => (.err (.texture e), lt, imgs, 0)
     | .panicked t => (.panicked t, lt, imgs, 0))
  | none =>
    if lt.frozen then (.err .frozen, lt, imgs, 0)
    else
      match constructMaterialInfo w name with
      | (.err e, n) => (.err e, lt, imgs, n)
      | (.panicked t, n) => (.panicked t, lt, imgs, n)
      | (.ok info, n) =>
        match lt.loadMaterialWithInfo w imgs (lowerStr name) info with
        | (r, lt2, imgs2) => (r, lt2, imgs2, n)

/-! ## quell crate: data.rs — `MinimalVMT` and `construct_material_info2` -/

/-- `MinimalVMT` (quell/src/data.rs:352-359). -/
structure MinimalVMT : Type where
  shaderName : ShaderName
  baseTexture : Option BStr
  includePath : Option BStr
  toolTexture : Option BStr
deriving DecidableEq, Repr

/-- The `for item in vmt_iter` loop of `MinimalVMT::from_bytes`
(quell/src/data.rs:377-405): only top-level `$basetexture`, `include`
and `%tooltexture` are kept; `sub_depth` is a plain signed counter. -/
def minProcList : MinimalVMT × ℤ → List VMTItem → PRes (VMTError Unit) MinimalVMT
  | (mv, _), [] => .ok mv
  | (mv, depth), it :: rest =>
    match it with
    | .shaderName _ => .panicked .unreachableItem
    | .comment _ => minProcList (mv, depth) rest
    | .keySub _ => minProcList (mv, depth + 1) rest
    | .endSub => minProcList (mv, depth - 1) rest
    | .keyValue k v =>
      if depth ≠ 0 then minProcList (mv, depth) rest
      else if eqIgnoreCase k ("$basetexture".toList) then
        minProcList ({ mv with baseTexture := some v }, depth) rest
      else if eqIgnoreCase k ("include".toList) then
        minProcList ({ mv with includePath := some v }, depth) rest
      else if eqIgnoreCase k ("%tooltexture".toList) then
        minProcList ({ mv with toolTexture := some v }, depth) rest
      else minProcList (mv, depth) rest

/-- `MinimalVMT::from_bytes` (quell/src/data.rs:361-408). -/
def MinimalVMT.fromBytes (bytes : BStr) : PRes (VMTError Unit) MinimalVMT :=
  match takeText bytes with
  | .error e => .err e
  | .ok (rest, nameBs) =>
    match ShaderName.fromBytes nameBs with
    | .panicked t => .panicked t
    | .err e => e.elim
    | .ok sn =>
      match vmtItemsFuel (rest.length + 1) ⟨rest, true, 0⟩ with
      | .panicked t => .panicked t
      | .err e => .err e
      | .ok items =>
        minProcList (⟨sn, none, none, none⟩, 0) items

/-- `MinimalVMT::apply` (quell/src/data.rs:410-433): only
`base_texture` and `tool_texture` are overridden by the other document;
the shader name and the include stay `self`'s. -/
def MinimalVMT.apply (s : MinimalVMT) (o : MinimalVMT) : MinimalVMT :=
  let v := s
  let v := match o.baseTexture with
    | some bt => { v with baseTexture := some bt }
    | none => v
  match o.toolTexture with
  | some tt => { v with toolTexture := some tt }
  | none => v

/-- `construct_material_info2` (quell/src/data.rs:437-484): like
`construct_material_info` but through `MinimalVMT`, with the single
include level applied as `included_vmt.apply(&vmt)`.  Here the `Water`
`%tooltexture` fallback is lowercased. -/
def constructMaterialInfo2 (w : World) (name : BStr) :
    PRes MaterialError LoadingMaterialInfo :=
  match findVmtData w name with
  | .error e => .err e
  | .ok (bytes, vmtSrc) =>
    match MinimalVMT.fromBytes bytes with
    | .err e => .err (.vmt e)
    | .panicked t => .panicked t
    | .ok mv =>
      let next : PRes MaterialError MinimalVMT :=
        match mv.includePath with
        | some inc =>
          match findVmtData w inc with
          | .error e => .err e
          | .ok (b2, _) =>
            match MinimalVMT.fromBytes b2 with
            | .err e => .err (.vmt e)
            | .panicked t => .panicked t
            | .ok included => .ok (included.apply mv)
        | none => .ok mv
      next.bind fun v =>
        match v.shaderName with
        | .water =>
          match v.baseTexture with
          | some bt => .ok ⟨vmtSrc, lowerStr bt⟩
          | none =>
            match v.toolTexture with
            | some tt => .ok ⟨vmtSrc, lowerStr tt⟩
            | none => .panicked .noWaterTexture
        | _ =>
          match v.baseTexture with
          | some bt => .ok ⟨vmtSrc, lowerStr bt⟩
          | none => .panicked .noBaseTexture

/-! ## quell crate: material.rs — the bulk loader (quell/src/material.rs:91-257)

The rayon pipeline is modelled by its sequential semantics: the stages
are `filter_map`/`map` steps with no cross-item data flow except the
`DashSet` of claimed texture names, which the model threads left to
right. -/

/-- `make_material` (quell/src/material.rs:259-283): a standard material
whose base color texture is the given image handle; modelled by that
handle. -/
def makeMaterial (image : ℕ) : ℕ := image

/-- `Assets<StandardMaterial>`: adding returns the fresh index. -/
abbrev MatAssets := List ℕ

/-- Modelled from the spec: `LoadedTextures::find_material_mut`, called
at quell/src/material.rs:225 but not defined in this snapshot of the
repository — the mutable analogue of `find_material` (first
ASCII-case-insensitive name match), here as a field update returning
`none` when no entry matches. -/
def updateMaterialMat : List (BStr × LMaterial) → BStr → ℕ → Option (List (BStr × LMaterial))
  | [], _, _ => none
  | (k, v) :: r, name, m =>
    if eqIgnoreCase name k then some ((k, { v with mat := m }) :: r)
    else (updateMaterialMat r name m).map (fun l => (k, v) :: l)

/-- Bulk stage (a): per-material `construct_material_info2`
(quell/src/material.rs:126-146); a failed material is logged and
dropped, a panic aborts the whole load. -/
def bulkStage1 (w : World) : List BStr → PRes TextureError (List (BStr × LoadingMaterialInfo))
  | [] => .ok []
  | n :: rest =>
    match constructMaterialInfo2 w n with
    | .panicked t => .panicked t
    | .err _ => bulkStage1 w rest
    | .ok info => (bulkStage1 w rest).map (fun l => (n, info) :: l)

/-- Bulk stage (b): texture-name deduplication against the `DashSet`
(quell/src/material.rs:147-157) — the first record naming a texture
claims the right to decode it (`should_load_img`). -/
def bulkStage2 : List (BStr × LoadingMaterialInfo) → List BStr →
    List (BStr × LoadingMaterialInfo × Bool)
  | [], _ => []
  | (n, info) :: rest, claimed =>
    if claimed.contains info.baseTextureName then
      (n, info, false) :: bulkStage2 rest claimed
    else
      (n, info, true) :: bulkStage2 rest (info.baseTextureName :: claimed)

/-- Bulk stage (d): decode the claimed images
(quell/src/material.rs:158-181); a record whose decode fails is dropped
(its material never reaches the merge), non-claiming records pass
through with no image. -/
def bulkStage3 (w : World) : List (BStr × LoadingMaterialInfo × Bool) →
    PRes TextureError (List (BStr × LoadingMaterialInfo × Option (ℕ × LSrc)))
  | [] => .ok []
  | (n, info, false) :: rest => (bulkStage3 w rest).map (fun l => (n, info, none) :: l)
  | (n, info, true) :: rest =>
    match constructImage w info.baseTextureName with
    | .ok p => (bulkStage3 w rest).map (fun l => (n, info, some p) :: l)
    | .err _ => bulkStage3 w rest
    | .panicked t => .panicked t

/-- Bulk merge, first loop (quell/src/material.rs:186-206): insert each
decoded texture, then insert every surviving material record (pointing
at its base texture name), collecting `materials_to_load`. -/
def bulkMerge1 (lt : LoadedTextures) (imgs : Assets) :
    List (BStr × LoadingMaterialInfo × Option (ℕ × LSrc)) →
    PRes TextureError (LoadedTextures × Assets × List (BStr × LoadingMaterialInfo))
  | [] => .ok (lt, imgs, [])
  | (n, info, img?) :: rest =>
    let step : PRes TextureError (LoadedTextures × Assets) :=
      match img? with
      | some (image, src) =>
        match lt.insertTextureOf imgs info.baseTextureName image src with
        | (.ok _, lt1, imgs1) => .ok (lt1, imgs1)
        | (.err e, _, _) => .err e
        | (.panicked t, _, _) => .panicked t
      | none => .ok (lt, imgs)
    step.bind fun p =>
      let lt2 := { p.1 with vmt := alInsert p.1.vmt n ⟨.ok info.baseTextureName, 0, info.vmtSrc⟩ }
      (bulkMerge1 lt2 p.2 rest).map (fun q => (q.1, q.2.1, (n, info) :: q.2.2))

/-- Bulk merge, second loop (quell/src/material.rs:208-228): for every
surviving material, `vtf.get(..).unwrap()` the texture entry (an abort
when the texture was never decoded), build the standard material and
write its handle into the cached record. -/
def bulkMerge2 (lt : LoadedTextures) (mats : MatAssets) :
    List (BStr × LoadingMaterialInfo) → PRes TextureError (LoadedTextures × MatAssets)
  | [] => .ok (lt, mats)
  | (n, info) :: rest =>
    match alGet lt.vtf info.baseTextureName with
    | none => .panicked .vtfEntryMissing
    | some li =>
      let material := makeMaterial li.image
      let handle := mats.length
      match updateMaterialMat lt.vmt n handle with
      | none => .panicked .matEntryMissing
      | some vmt1 => bulkMerge2 { lt with vmt := vmt1 } (mats ++ [material]) rest

/-- `load_materials` (quell/src/material.rs:91-257): the four stages,
the two sequential merge loops, then `frozen := true`. -/
def loadMaterials (w : World) (names : List BStr) (lt : LoadedTextures)
    (imgs : Assets) (mats : MatAssets) :
    PRes TextureError (LoadedTextures × Assets × MatAssets) :=
  (bulkStage1 w names).bind fun s1 =>
    (bulkStage3 w (bulkStage2 s1 [])).bind fun recs =>
      (bulkMerge1 lt imgs recs).bind fun m1 =>
        (bulkMerge2 m1.1 mats m1.2.2).bind fun m2 =>
          .ok ({ m2.1 with frozen := true }, m1.2.1, m2.2)

/-! ## quell crate: mesh.rs — displacement reconstruction -/

abbrev Vec3 := ℚ × ℚ × ℚ

/-- `SCALE` (quell/src/mesh.rs:11): `1.0 / (1.905 * 100.0)`, exact. -/
def SCALE : ℚ := 1 / ((1905 : ℚ) / 1000 * 100)

/-- `rotate` (quell/src/mesh.rs:504-506): `[-y, z, -x]`. -/
def rotate (v : Vec3) : Vec3 := (-v.2.1, v.2.2, -v.1)

/-- `scale` (quell/src/mesh.rs:517-519). -/
def scaleVec (v : Vec3) : Vec3 := (v.1 * SCALE, v.2.1 * SCALE, v.2.2 * SCALE)

def vAdd (a b : Vec3) : Vec3 := (a.1 + b.1, a.2.1 + b.2.1, a.2.2 + b.2.2)
def vSub (a b : Vec3) : Vec3 := (a.1 - b.1, a.2.1 - b.2.1, a.2.2 - b.2.2)
def vSmul (q : ℚ) (a : Vec3) : Vec3 := (q * a.1, q * a.2.1, q * a.2.2)

/-- A unit normal kept exactly: the cross-product vector paired with its
squared Euclidean length (the source's `find_normal`,
quell/src/mesh.rs:481-494, divides by the irrational
`len = (|n|²).sqrt()`; the pair `(n, |n|²)` represents `n / len`
without leaving `ℚ`). -/
structure NormalQ : Type where
  vec : Vec3
  len2 : ℚ
deriving DecidableEq, Repr

/-- `find_normal` (quell/src/mesh.rs:481-494). -/
def findNormal (a b c : Vec3) : NormalQ :=
  let u := vSub b c
  let v := vSub a c
  let n : Vec3 :=
    (u.2.1 * v.2.2 - u.2.2 * v.2.1,
     u.2.2 * v.1 - u.1 * v.2.2,
     u.1 * v.2.1 - u.2.1 * v.1)
  ⟨n, n.1 * n.1 + n.2.1 * n.2.1 + n.2.2 * n.2.2⟩

/-- One record of `bsp.displacement_vertices`. -/
structure DispVert : Type where
  vector : Vec3
  dist : ℚ
  alpha : ℚ
deriving DecidableEq, Repr

/-- The displacement data `create_displacement_mesh` consumes, with the
face's edge loop already walked into its corner vertices (the walk at
quell/src/mesh.rs:325-353 only plumbs BSP tables). -/
structure DispInput : Type where
  power : ℕ
  startPosition : Vec3
  corners : List Vec3
  dispVertexStart : ℕ
  dispVerts : List DispVert

/-- `(2 << (disp.power - 1)) + 1` (quell/src/mesh.rs:371). -/
def vertsWide (p : ℕ) : ℕ := (2 <<< (p - 1)) + 1

/-- L1 distance used for picking the base corner (quell/src/mesh.rs:346-348). -/
def l1dist (a b : Vec3) : ℚ := |a.1 - b.1| + |a.2.2 - b.2.2| + |a.2.1 - b.2.1|

/-- One step of the base-corner scan: keep the running best (index,
distance), replaced on a strictly smaller L1 distance; `none` stands for
the initial infinite `base_dist`, which any first corner beats. -/
def baseCornerStep (lowBase : Vec3) (acc : ℕ × Option (ℕ × ℚ)) (v : Vec3) :
    ℕ × Option (ℕ × ℚ) :=
  let i := acc.1
  let d := l1dist v lowBase
  match acc.2 with
  | none => (i + 1, some (i, d))
  | some (bi, bd) => (i + 1, if d < bd then some (i, d) else some (bi, bd))

/-- The base-corner scan (quell/src/mesh.rs:326-355): the first corner of
strictly smallest L1 distance to the start position. -/
def baseCornerScan (lowBase : Vec3) (corners : List Vec3) : Option ℕ :=
  ((corners.foldl (baseCornerStep lowBase) (0, none)).2).map Prod.fst

/-- The outputs of `create_displacement_mesh` the claims speak about:
the interpolated vertex grid (`base_verts[0 .. verts_wide²)`) and the
emitted triangle list with its per-triangle normals. -/
structure DispMesh : Type where
  grid : List Vec3
  positions : List Vec3
  normals : List NormalQ

/-- Read of the 289-slot `base_verts` array (quell/src/mesh.rs:373,419-422);
all reads are at indices `< verts_wide²`, inside the written range. -/
def gridRead (grid : List Vec3) (i : ℕ) : Vec3 := grid.getD i (0, 0, 0)

/-- One interpolated grid vertex (quell/src/mesh.rs:376-409): bilinear
interpolation over the quad plus the stored per-vertex offset scaled by
the stored distance. -/
def dispGridVert (lowBase highBase highRay lowRay : Vec3) (w : ℕ)
    (vert : ℕ → DispVert) (x y : ℕ) : Vec3 :=
  let fy : ℚ := (y : ℚ) / ((w : ℚ) - 1)
  let midBase := vAdd lowBase (vSmul fy lowRay)
  let midRay := vSub (vAdd highBase (vSmul fy highRay)) midBase
  let fx : ℚ := (x : ℚ) / ((w : ℚ) - 1)
  let dv := vert (x + y * w)
  vAdd (vAdd midBase (vSmul fx midRay)) (vSmul dv.dist dv.vector)

/-- The written portion of `base_verts` in index order (index
`x + y * verts_wide`, `y` outer). -/
def dispGrid (lowBase highBase highRay lowRay : Vec3) (w : ℕ)
    (vert : ℕ → DispVert) : List Vec3 :=
  (List.range w).flatMap fun y =>
    (List.range w).map fun x => dispGridVert lowBase highBase highRay lowRay w vert x y

/-- The two triangles of one 2×2 grid cell (quell/src/mesh.rs:415-465),
with the diagonal alternating by the parity of the cell's base index. -/
def dispCell (grid : List Vec3) (w x y : ℕ) : List (Vec3 × NormalQ) :=
  let i := x + y * w
  let v1 := scaleVec (rotate (gridRead grid i))
  let v2 := scaleVec (rotate (gridRead grid (i + 1)))
  let v3 := scaleVec (rotate (gridRead grid (i + w)))
  let v4 := scaleVec (rotate (gridRead grid (i + w + 1)))
  if i % 2 ≠ 0 then
    let n1 := findNormal v2 v3 v1
    let n2 := findNormal v4 v3 v2
    [(v2, n1), (v3, n1), (v1, n1), (v4, n2), (v3, n2), (v2, n2)]
  else
    let n1 := findNormal v4 v3 v1
    let n2 := findNormal v4 v1 v2
    [(v4, n1), (v3, n1), (v1, n1), (v4, n2), (v1, n2), (v2, n2)]

/-- The full triangle list: two triangles per 2×2 cell of the grid. -/
def dispTris (grid : List Vec3) (w : ℕ) : List (Vec3 × NormalQ) :=
  (List.range (w - 1)).flatMap fun y =>
    (List.range (w - 1)).flatMap fun x => dispCell grid w x y

/-- `create_displacement_mesh` (quell/src/mesh.rs:310-479).  The source
`unwrap`s each `displacement_vertices` read; the reads cover exactly the
indices `dispVertexStart .. dispVertexStart + verts_wide²`, so the model
checks that range up front and otherwise aborts like the source. -/
def createDisplacementMesh (inp : DispInput) : PRes Unit DispMesh :=
  if inp.corners.length ≠ 4 then .panicked .badDisplacement
  else
    let lowBase := inp.startPosition
    match baseCornerScan lowBase inp.corners with
    | none => .panicked .badDisplacement
    | some baseI =>
      let corner := fun (j : ℕ) => gridRead inp.corners j
      let highBase := corner ((baseI + 3) % 4)
      let highRay := vSub (corner ((baseI + 2) % 4)) highBase
      let lowRay := vSub (corner ((baseI + 1) % 4)) lowBase
      let w := vertsWide inp.power
      if inp.dispVertexStart + w * w ≤ inp.dispVerts.length then
        let vert := fun (i : ℕ) => inp.dispVerts.getD (inp.dispVertexStart + i) ⟨(0, 0, 0), 0, 0⟩
        let grid := dispGrid lowBase highBase highRay lowRay w vert
        let tris := dispTris grid w
        .ok ⟨grid, tris.map Prod.fst, tris.map Prod.snd⟩
      else .panicked .dispVertexMissing

/-! ## Concrete instances used by the theorems below -/

/-- A `VpkState` with nothing loaded. -/
def emptyVpk : VpkState := ⟨⟨[]⟩, ⟨[]⟩, ⟨[]⟩, ⟨[]⟩⟩

/-- A world with empty archives, no map, and a decoder that accepts
everything. -/
def cWorld : World := { vpk := emptyVpk, map := none, decode := fun _ => .ok 0 }

/-- A VMT whose only content is a base texture `t`. -/
def c1Vmt1Bytes : BStr := "\"LightmappedGeneric\" \x7b \"$basetexture\" \"t\" \x7d".toList

/-- Archives holding two materials `m1`, `m2` that share the base
texture `t`, and the texture `t` itself. -/
def c1Vpk : VpkState :=
  { hl2Textures := ⟨[]⟩
    hl2Misc := ⟨[⟨"vmt".toList, "materials".toList, "m1".toList, 0, c1Vmt1Bytes⟩,
                 ⟨"vmt".toList, "materials".toList, "m2".toList, 0, c1Vmt1Bytes⟩]⟩
    textures := ⟨[⟨"vtf".toList, "materials".toList, "t".toList, 0, "IMG".toList⟩]⟩
    misc := ⟨[]⟩ }

/-- The world of the bulk-load abort scenario: the shared texture's
bytes are found, but its VTF decode fails. -/
def c1World : World := { vpk := c1Vpk, map := none, decode := fun _ => .error () }

/-- Middle document of an include chain: `b` includes `c`. -/
def c2DocB : VMT := { includePath := some ("c".toList) }

/-- Last document of the include chain: no include. -/
def c2DocC : VMT := {}

/-- The loader of a finite, acyclic include chain `a → b → c`. -/
def c2Load : BStr → Except Unit VMT := fun s =>
  if s = "b".toList then .ok c2DocB
  else if s = "c".toList then .ok c2DocC
  else .error ()

/-- First document of the chain: includes `b`. -/
def c2DocA : VMT := { includePath := some ("b".toList) }

/-- `resolve_recurse` never terminates from `v`: every fuel bound is
exhausted. -/
def ResolveRecurseDiverges {ε : Type} (load : BStr → Except ε VMT) (v : VMT) : Prop :=
  ∀ n, VMT.resolveRecurseFuel load n v = .ok none

/-- A cache frozen after a texture `t` (handle 7) and a material `m`
pointing at it were inserted. -/
def c3Cache : LoadedTextures :=
  { vmt := [("m".toList, ⟨.ok ("t".toList), 0, .map⟩)]
    vtf := [("t".toList, ⟨7, .map⟩)]
    frozen := true }

/-- A displacement of power 2 over a unit-ish quad with enough stored
displacement vertices. -/
def c9Inp : DispInput :=
  { power := 2
    startPosition := (0, 0, 0)
    corners := [(0, 0, 0), (4, 0, 0), (4, 4, 0), (0, 4, 0)]
    dispVertexStart := 0
    dispVerts := List.replicate 25 ⟨(0, 0, 1), 1, 0⟩ }

/-- A document whose `$basetexture` appears only inside a `Proxies`
sub-block. -/
def c10Bytes : BStr :=
  "\"LightmappedGeneric\" \x7b \"Proxies\" \x7b \"$basetexture\" \"x/y\" \x7d \x7d".toList

/-- Decidable form of "no item of the list is a `$basetexture` key/value
pair" (ASCII case-insensitively). -/
def noBaseTexKey (l : List VMTItem) : Bool :=
  l.all fun it =>
    match it with
    | .keyValue k _ => !eqIgnoreCase k ("$basetexture".toList)
    | _ => true

/-- Parent document of the include/apply example: a base texture and a
phong value. -/
def c6Parent : VMT := { baseTexture := some ("parent_tex".toList), phong := some 1 }

/-- Child document of the include/apply example: sets only the base
texture (and its include). -/
def c6Child : VMT :=
  { baseTexture := some ("child_tex".toList), includePath := some ("parent".toList) }

/-- Archives with conflicting entries named `foo` in a higher-priority
index (`hl2Misc`) and a lower-priority one (`misc`). -/
def c5Vpk : VpkState :=
  { hl2Textures := ⟨[]⟩
    hl2Misc := ⟨[⟨"vmt".toList, "materials".toList, "foo".toList, 3, "HI".toList⟩]⟩
    textures := ⟨[]⟩
    misc := ⟨[⟨"vmt".toList, "materials".toList, "foo".toList, 9, "LO".toList⟩]⟩ }

/-! ## Theorems -/

/-- C8: the conversion of an unrecognized byte string aborts via
`panic!` instead of totally producing the arbitrary-string variant (the
dead line after the panic, kept as `ShaderName.fromBytesSpec`, is what
the spec describes); the case-insensitive equality half of the claim
does hold. -/
theorem C8_shader_name_conversion :
    ShaderName.fromBytes ("Sky".toList) = .panicked .unknownShaderName ∧
    ShaderName.fromBytesSpec ("Sky".toList) = .str ("Sky".toList) ∧
    ShaderName.beq (.str ("wAtEr".toList)) .water = true ∧
    ShaderName.beq .water (.str ("WATER".toList)) = true ∧
    ShaderName.beq (.str ("AbC".toList)) (.str ("aBc".toList)) = true := by
  decide

/-- The merged document of a `resolve` step against the chain loader
keeps the child's own include path whenever the loaded parent has an
include (the parent's further include is overwritten by `apply`). -/
theorem c2_invariant (v : VMT) (h : v.includePath = some ("b".toList)) :
    ∃ v', VMT.resolve c2Load v = Except.ok v' ∧ v'.includePath = some ("b".toList) := by
  refine ⟨c2DocB.apply v, ?_, ?_⟩
  · simp [VMT.resolve, h, c2Load, c2DocB]
  · simp [VMT.apply, applyOpt, h]

/-- No fuel bound lets `resolve_recurse` finish from a document whose
include is `b`. -/
theorem c2_aux (n : ℕ) : ∀ v : VMT, v.includePath = some ("b".toList) →
    VMT.resolveRecurseFuel c2Load n v = .ok none := by
  induction n with
  | zero => intro v _; rfl
  | succ n ih =>
    intro v h
    obtain ⟨v', hres, hinc⟩ := c2_invariant v h
    simp [VMT.resolveRecurseFuel, hres, hinc, ih v' hinc]

/-- C2: on the finite acyclic include chain `a → b → c`,
`resolve_recurse` never terminates — each `resolve` step reloads `b` and
the merged document keeps include `b` (the child's include wins in
`apply` and is only cleared when the parent has none); by contrast, when
the loaded parent has no further include the result's include is
cleared, as the claim's first half says. -/
theorem C2_resolve_recurse_diverges :
    ResolveRecurseDiverges c2Load c2DocA ∧
    (∃ v', VMT.resolve c2Load ({ includePath := some ("c".toList) } : VMT) = Except.ok v' ∧
      v'.includePath = none) := by
  constructor
  · intro n
    exact c2_aux n c2DocA rfl
  · exact ⟨_, rfl, rfl⟩

/-- C3 counterexample: the texture `t` was inserted before freezing and
is present in the frozen cache, yet `load_texture` fails with `Frozen`
instead of succeeding with the cached value (it checks `frozen` before
any cache consultation). -/
theorem C3_counterexample :
    (c3Cache.findTexture ("t".toList)).isSome = true ∧
    c3Cache.loadTexture cWorld [] ("t".toList) = (.err .frozen, c3Cache, []) := by
  decide

/-- C3 (amended): once `frozen` is set, `load_material` with a name not
in the cache fails with `Frozen` leaving the cache unchanged, and a
cache hit still returns the cached result (success or cached error)
without touching the cache; `load_texture`, however, fails with `Frozen`
for every name — cached or not — once frozen, leaving the cache
unchanged. -/
theorem C3_freeze_semantics :
    (∀ (w : World) (imgs : Assets) (lt : LoadedTextures) (name : BStr),
        lt.frozen = true → lt.findMaterialTexture name = none →
        lt.loadMaterial w imgs name = (.err .frozen, lt, imgs, 0)) ∧
    (∀ (w : World) (imgs : Assets) (lt : LoadedTextures) (name : BStr) (h : ℕ),
        lt.findMaterialTexture name = some (.ok h) →
        lt.loadMaterial w imgs name = (.ok h, lt, imgs, 0)) ∧
    (∀ (w : World) (imgs : Assets) (lt : LoadedTextures) (name : BStr) (e : TextureError),
        lt.findMaterialTexture name = some (.err e) →
        lt.loadMaterial w imgs name = (.err (.texture e), lt, imgs, 0)) ∧
    (∀ (w : World) (imgs : Assets) (lt : LoadedTextures) (name : BStr),
        lt.frozen = true →
        lt.loadTexture w imgs name = (.err .frozen, lt, imgs)) := by
  refine ⟨?_, ?_, ?_, ?_⟩
  · intro w imgs lt name hf hm
    simp [LoadedTextures.loadMaterial, hm, hf]
  · intro w imgs lt name h hm
    simp [LoadedTextures.loadMaterial, hm]
  · intro w imgs lt name e hm
    simp [LoadedTextures.loadMaterial, hm]
  · intro w imgs lt name hf
    simp [LoadedTextures.loadTexture, hf]

/-- C3 witness: the amended freeze semantics at the concrete frozen
cache. -/
theorem C3_freeze_semantics_witness :
    c3Cache.loadMaterial cWorld [] ("nope".toList) = (.err .frozen, c3Cache, [], 0) ∧
    c3Cache.loadMaterial cWorld [] ("m".toList) = (.ok 7, c3Cache, [], 0) ∧
    c3Cache.loadTexture cWorld [] ("t".toList) = (.err .frozen, c3Cache, []) := by
  refine ⟨?_, ?_, ?_⟩
  · exact C3_freeze_semantics.1 cWorld [] c3Cache ("nope".toList) rfl (by decide)
  · exact C3_freeze_semantics.2.1 cWorld [] c3Cache ("m".toList) 7 (by decide)
  · exact C3_freeze_semantics.2.2.2 cWorld [] c3Cache ("t".toList) rfl

/-- C4 counterexample: on an empty world, a failed `load_material`
returns `FindFailure` but leaves the cache empty, and the second call
performs the archive/map search again (its search count is 1, not 0). -/
theorem C4_counterexample :
    LoadedTextures.loadMaterial {} cWorld [] ("x".toList) =
      (.err (.findFailure ("x".toList)), {}, [], 1) ∧
    (LoadedTextures.loadMaterial {} cWorld [] ("x".toList)).2.2.2 = 1 := by
  decide

/-- C4 (amended): a `FindFailure` of `load_material` is returned as a
typed error but never cached — the cache and image assets are returned
unchanged and exactly one `find_vmt` search was performed, so a repeated
call with the same name runs the same search again and fails the same
way. -/
theorem C4_find_failure_not_cached :
    ∀ (w : World) (imgs : Assets) (lt : LoadedTextures) (name : BStr),
      lt.findMaterialTexture name = none → lt.frozen = false →
      findVmtData w name = .error (.findFailure name) →
      lt.loadMaterial w imgs name = (.err (.findFailure name), lt, imgs, 1) := by
  intro w imgs lt name hm hf hfind
  simp [LoadedTextures.loadMaterial, hm, hf, constructMaterialInfo, hfind]

/-- C4 witness: the amended statement at the empty world, applied twice
to exhibit the repeated search. -/
theorem C4_find_failure_not_cached_witness :
    LoadedTextures.loadMaterial {} cWorld [] ("x".toList) =
      (.err (.findFailure ("x".toList)), {}, [], 1) := by
  exact C4_find_failure_not_cached cWorld [] {} ("x".toList) rfl rfl (by decide)

/-- C1: with two materials `m1`, `m2` sharing the base texture `t`
whose decode fails, the bulk load aborts (the merge loop `unwrap`s the
never-decoded texture entry) instead of completing; with a single such
material, the item is dropped and the load completes with an empty
frozen cache, as the claim describes. -/
theorem C1_bulk_load_abort :
    loadMaterials c1World ["m1".toList, "m2".toList] {} [] [] =
      .panicked .vtfEntryMissing ∧
    loadMaterials c1World ["m1".toList] {} [] [] =
      .ok ({ frozen := true }, [], []) := by
  decide

/-- The claim's words for field precedence, as its own definition: the
overlay (child) value when the child sets it, the base (parent) value
when it does not. -/
def overlayOpt {α : Type} (base overlay : Option α) : Option α :=
  match overlay with
  | some v => some v
  | none => base

/-- The source's `apply` helper agrees with the claim-side `overlayOpt`. -/
theorem applyOpt_eq_overlayOpt {α : Type} (a b : Option α) :
    applyOpt a b = overlayOpt a b := by
  cases b <;> rfl

/-- Lookup after a replacing insert. -/
theorem alGet_alInsert {α : Type} (m : List (BStr × α)) (k k' : BStr) (v : α) :
    alGet (alInsert m k v) k' = if k' = k then some v else alGet m k' := by
  induction m with
  | nil =>
    by_cases h : k' = k
    · subst h; simp [alInsert, alGet]
    · have h' : ¬ (k = k') := fun hh => h hh.symm
      simp [alInsert, alGet, h, h']
  | cons p rest ih =>
    obtain ⟨a, b⟩ := p
    by_cases hak : a = k
    · subst hak
      simp only [alInsert, if_pos rfl]
      by_cases h : a = k'
      · subst h; simp [alGet]
      · have h' : ¬ (k' = a) := fun hh => h hh.symm
        simp [alGet, h, h']
    · simp only [alInsert, if_neg hak, alGet]
      by_cases hak' : a = k'
      · subst hak'
        simp [hak]
      · simp [hak', ih]

/-- A key outside a map's key list looks up to nothing. -/
theorem alGet_eq_none_of_not_mem {α : Type} (l : List (BStr × α)) (k : BStr)
    (h : k ∉ l.map Prod.fst) : alGet l k = none := by
  induction l with
  | nil => rfl
  | cons p rest ih =>
    obtain ⟨a, b⟩ := p
    simp only [List.map_cons, List.mem_cons] at h
    push_neg at h
    have ha : ¬ (a = k) := fun hh => h.1 hh.symm
    simp [alGet, ha, ih h.2]

/-- Lookup over `HashMap::extend`: an entry of the extending map wins,
otherwise the base map answers (for extending maps without duplicate
keys, which `HashMap`s never have). -/
theorem alGet_alExtend (m o : List (BStr × BStr)) (hnd : (o.map Prod.fst).Nodup)
    (k : BStr) :
    alGet (alExtend m o) k = applyOpt (alGet m k) (alGet o k) := by
  induction o generalizing m with
  | nil => simp [alExtend, alGet, applyOpt]
  | cons p o ih =>
    obtain ⟨a, b⟩ := p
    rw [List.map_cons, List.nodup_cons] at hnd
    have hstep : alExtend m ((a, b) :: o) = alExtend (alInsert m a b) o := rfl
    rw [hstep, ih _ hnd.2]
    by_cases h : k = a
    · subst h
      have ho : alGet o k = none := alGet_eq_none_of_not_mem o k hnd.1
      simp [ho, alGet_alInsert, alGet, applyOpt]
    · have h' : ¬ (a = k) := fun hh => h hh.symm
      simp [alGet_alInsert, h, alGet, h', applyOpt]

/-- C6: `apply` gives the child (overlay) document precedence on every
optional typed field — the child's value when set, the parent's
otherwise — and the `other` bag behaves as the union with child entries
overwriting parent entries on key collision. -/
theorem C6_apply_precedence (p c : VMT) (hnd : (c.other.map Prod.fst).Nodup) :
    ((p.apply c).baseTexture = overlayOpt p.baseTexture c.baseTexture) ∧
    ((p.apply c).phong = overlayOpt p.phong c.phong) ∧
    ((p.apply c).decal = overlayOpt p.decal c.decal) ∧
    ((p.apply c).surfaceProp = overlayOpt p.surfaceProp c.surfaceProp) ∧
    ((p.apply c).baseTextureTransform = overlayOpt p.baseTextureTransform c.baseTextureTransform) ∧
    ((p.apply c).color = overlayOpt p.color c.color) ∧
    ((p.apply c).phongBoost = overlayOpt p.phongBoost c.phongBoost) ∧
    ((p.apply c).phongExponent = overlayOpt p.phongExponent c.phongExponent) ∧
    ((p.apply c).phongFresnelRanges = overlayOpt p.phongFresnelRanges c.phongFresnelRanges) ∧
    ((p.apply c).lightwarpTexture = overlayOpt p.lightwarpTexture c.lightwarpTexture) ∧
    ((p.apply c).keywords = overlayOpt p.keywords c.keywords) ∧
    ((p.apply c).includePath = overlayOpt p.includePath c.includePath) ∧
    ((p.apply c).detail.texture = overlayOpt p.detail.texture c.detail.texture) ∧
    ((p.apply c).detail.tint = overlayOpt p.detail.tint c.detail.tint) ∧
    ((p.apply c).detail.frame = overlayOpt p.detail.frame c.detail.frame) ∧
    ((p.apply c).detail.scale = overlayOpt p.detail.scale c.detail.scale) ∧
    ((p.apply c).detail.alphaMaskBaseTexture = overlayOpt p.detail.alphaMaskBaseTexture c.detail.alphaMaskBaseTexture) ∧
    ((p.apply c).detail.blendMode = overlayOpt p.detail.blendMode c.detail.blendMode) ∧
    ((p.apply c).detail.blendFactor = overlayOpt p.detail.blendFactor c.detail.blendFactor) ∧
    ((p.apply c).detail2.texture = overlayOpt p.detail2.texture c.detail2.texture) ∧
    ((p.apply c).detail2.scale = overlayOpt p.detail2.scale c.detail2.scale) ∧
    ((p.apply c).detail2.blendFactor = overlayOpt p.detail2.blendFactor c.detail2.blendFactor) ∧
    ((p.apply c).detail2.frame = overlayOpt p.detail2.frame c.detail2.frame) ∧
    ((p.apply c).detail2.tint = overlayOpt p.detail2.tint c.detail2.tint) ∧
    (∀ k, alGet (p.apply c).other k =
      overlayOpt (alGet p.other k) (alGet c.other k)) := by
  refine ⟨?_, ?_, ?_, ?_, ?_, ?_, ?_, ?_, ?_, ?_, ?_, ?_, ?_, ?_, ?_, ?_, ?_, ?_,
    ?_, ?_, ?_, ?_, ?_, ?_, ?_⟩
  all_goals
    first
    | (intro k
       exact (alGet_alExtend p.other c.other hnd k).trans (applyOpt_eq_overlayOpt _ _))
    | exact applyOpt_eq_overlayOpt _ _

/-- C6 witness: the claim's example — the child sets only
`$basetexture`, so the result takes the child's base texture and
inherits the parent's phong. -/
theorem C6_apply_precedence_witness :
    (c6Parent.apply c6Child).baseTexture = some ("child_tex".toList) ∧
    (c6Parent.apply c6Child).phong = some 1 := by
  have h := C6_apply_precedence c6Parent c6Child (by simp [c6Child])
  exact ⟨by simpa [c6Child, overlayOpt] using h.1,
    by simpa [c6Child, c6Parent, overlayOpt] using h.2.1⟩

/-- The query normalization of `find_texture` (strip `materials/` and
`.vtf`, quell/src/data.rs:709-710). -/
def texQueryNorm (name : BStr) : BStr :=
  dropSuf (".vtf".toList) (dropPre ("materials/".toList) name)

/-- An entry with its payload bytes dropped (lookup metadata only). -/
def eraseBytes (e : VPKEntry) : VPKEntry := { e with bytes := [] }

/-- A package index with every entry's bytes dropped. -/
def eraseDataBytes (d : VpkData) : VpkData := ⟨d.entries.map eraseBytes⟩

/-- The whole archive state with every entry's bytes dropped. -/
def eraseStateBytes (st : VpkState) : VpkState :=
  ⟨eraseDataBytes st.hl2Textures, eraseDataBytes st.hl2Misc,
    eraseDataBytes st.textures, eraseDataBytes st.misc⟩

/-- Per-index lookup is blind to entry bytes. -/
theorem vpkDataFind_eraseBytes (d : VpkData) (ext dir fn : BStr) :
    (eraseDataBytes d).find ext dir fn = (d.find ext dir fn).map eraseBytes := by
  unfold eraseDataBytes VpkData.find
  rw [List.find?_map]
  rfl

/-- C5: `VpkState` lookup probes the indexes in the fixed priority order
HL2Textures, HL2Misc, TexturesVPK, MiscVPK and returns the first match
(so a higher-priority hit shadows any lower-priority entry), both for
the raw (extension, directory, filename) lookup and for the normalized
`find_texture` wrapper; per-index comparison is ASCII case-insensitive
in every query component; and the lookup result is unchanged when all
entry bytes are erased (no entry bytes are read). -/
theorem C5_vpk_lookup :
    (∀ (st : VpkState) (ext dir fn : BStr) (e : VPKEntry),
        st.hl2Textures.find ext dir fn = some e →
        st.find ext dir fn = some (e, .hl2Textures)) ∧
    (∀ (st : VpkState) (ext dir fn : BStr) (e : VPKEntry),
        st.hl2Textures.find ext dir fn = none →
        st.hl2Misc.find ext dir fn = some e →
        st.find ext dir fn = some (e, .hl2Misc)) ∧
    (∀ (st : VpkState) (ext dir fn : BStr) (e : VPKEntry),
        st.hl2Textures.find ext dir fn = none →
        st.hl2Misc.find ext dir fn = none →
        st.textures.find ext dir fn = some e →
        st.find ext dir fn = some (e, .texturesVPK)) ∧
    (∀ (st : VpkState) (ext dir fn : BStr) (e : VPKEntry),
        st.hl2Textures.find ext dir fn = none →
        st.hl2Misc.find ext dir fn = none →
        st.textures.find ext dir fn = none →
        st.misc.find ext dir fn = some e →
        st.find ext dir fn = some (e, .miscVPK)) ∧
    (∀ (st : VpkState) (ext dir fn : BStr),
        st.hl2Textures.find ext dir fn = none →
        st.hl2Misc.find ext dir fn = none →
        st.textures.find ext dir fn = none →
        st.misc.find ext dir fn = none →
        st.find ext dir fn = none) ∧
    (∀ (st : VpkState) (name : BStr) (e : VPKEntry),
        st.hl2Textures.findDirect ("vtf".toList) ("materials".toList) (texQueryNorm name) = some e →
        st.findTexture name = some (e, .hl2Textures)) ∧
    (∀ (st : VpkState) (name : BStr) (e : VPKEntry),
        st.hl2Textures.findDirect ("vtf".toList) ("materials".toList) (texQueryNorm name) = none →
        st.hl2Misc.findDirect ("vtf".toList) ("materials".toList) (texQueryNorm name) = some e →
        st.findTexture name = some (e, .hl2Misc)) ∧
    (∀ (st : VpkState) (name : BStr) (e : VPKEntry),
        st.hl2Textures.findDirect ("vtf".toList) ("materials".toList) (texQueryNorm name) = none →
        st.hl2Misc.findDirect ("vtf".toList) ("materials".toList) (texQueryNorm name) = none →
        st.textures.findDirect ("vtf".toList) ("materials".toList) (texQueryNorm name) = some e →
        st.findTexture name = some (e, .texturesVPK)) ∧
    (∀ (st : VpkState) (name : BStr) (e : VPKEntry),
        st.hl2Textures.findDirect ("vtf".toList) ("materials".toList) (texQueryNorm name) = none →
        st.hl2Misc.findDirect ("vtf".toList) ("materials".toList) (texQueryNorm name) = none →
        st.textures.findDirect ("vtf".toList) ("materials".toList) (texQueryNorm name) = none →
        st.misc.findDirect ("vtf".toList) ("materials".toList) (texQueryNorm name) = some e →
        st.findTexture name = some (e, .miscVPK)) ∧
    (∀ (d : VpkData) (ext ext' dir dir' fn fn' : BStr),
        lowerStr ext = lowerStr ext' → lowerStr dir = lowerStr dir' →
        lowerStr fn = lowerStr fn' →
        d.find ext dir fn = d.find ext' dir' fn') ∧
    (∀ (d : VpkData) (ext ext' dir dir' nm nm' : BStr),
        lowerStr ext = lowerStr ext' → lowerStr dir = lowerStr dir' →
        lowerStr nm = lowerStr nm' →
        d.findDirect ext dir nm = d.findDirect ext' dir' nm') ∧
    (∀ (st : VpkState) (ext dir fn : BStr),
        (eraseStateBytes st).find ext dir fn =
          (st.find ext dir fn).map (fun p => (eraseBytes p.1, p.2))) := by
  refine ⟨?_, ?_, ?_, ?_, ?_, ?_, ?_, ?_, ?_, ?_, ?_, ?_⟩
  · intro st ext dir fn e h1
    simp [VpkState.find, h1]
  · intro st ext dir fn e h1 h2
    simp [VpkState.find, h1, h2]
  · intro st ext dir fn e h1 h2 h3
    simp [VpkState.find, h1, h2, h3]
  · intro st ext dir fn e h1 h2 h3 h4
    simp [VpkState.find, h1, h2, h3, h4]
  · intro st ext dir fn h1 h2 h3 h4
    simp [VpkState.find, h1, h2, h3, h4]
  · intro st name e h1
    simp only [texQueryNorm] at h1
    simp only [VpkState.findTexture]
    rw [h1]
  · intro st name e h1 h2
    simp only [texQueryNorm] at h1 h2
    simp only [VpkState.findTexture]
    rw [h1, h2]
  · intro st name e h1 h2 h3
    simp only [texQueryNorm] at h1 h2 h3
    simp only [VpkState.findTexture]
    rw [h1, h2, h3]
  · intro st name e h1 h2 h3 h4
    simp only [texQueryNorm] at h1 h2 h3 h4
    simp only [VpkState.findTexture]
    rw [h1, h2, h3, h4]
  · intro d ext ext' dir dir' fn fn' h1 h2 h3
    simp [VpkData.find, eqIgnoreCase, h1, h2, h3]
  · intro d ext ext' dir dir' nm nm' h1 h2 h3
    have hj : lowerStr (dir ++ '/' :: nm) = lowerStr (dir' ++ '/' :: nm') := by
      simp only [lowerStr, List.map_append, List.map_cons] at h2 h3 ⊢
      rw [h2, h3]
    simp [VpkData.findDirect, eqIgnoreCase, h1, hj]
  · intro st ext dir fn
    simp only [VpkState.find, eraseStateBytes, vpkDataFind_eraseBytes]
    cases h1 : st.hl2Textures.find ext dir fn <;>
      cases h2 : st.hl2Misc.find ext dir fn <;>
        cases h3 : st.textures.find ext dir fn <;>
          cases h4 : st.misc.find ext dir fn <;> simp

/-- C5 witness: with `foo` in both the shared-base `hl2Misc` index and
the lower-priority `misc` index, the lookup answers from `hl2Misc`; the
same holds with all bytes erased. -/
theorem C5_vpk_lookup_witness :
    c5Vpk.find ("vmt".toList) ("materials".toList) ("foo".toList) =
      some (⟨"vmt".toList, "materials".toList, "foo".toList, 3, "HI".toList⟩, .hl2Misc) ∧
    (eraseStateBytes c5Vpk).find ("vmt".toList) ("materials".toList) ("foo".toList) =
      some (⟨"vmt".toList, "materials".toList, "foo".toList, 3, []⟩, .hl2Misc) := by
  constructor
  · exact C5_vpk_lookup.2.1 c5Vpk ("vmt".toList) ("materials".toList) ("foo".toList)
      ⟨"vmt".toList, "materials".toList, "foo".toList, 3, "HI".toList⟩ (by decide) (by decide)
  · rw [C5_vpk_lookup.2.2.2.2.2.2.2.2.2.2.2 c5Vpk ("vmt".toList) ("materials".toList)
      ("foo".toList)]
    decide

/-- `findIdx?` misses when the predicate holds nowhere. -/
theorem findIdx?_eq_none_of (p : Char → Bool) (s : BStr)
    (h : ∀ c ∈ s, p c = false) : s.findIdx? p = none := by
  induction s with
  | nil => rfl
  | cons a l ih =>
    rw [List.findIdx?_cons]
    simp [h a (List.mem_cons_self a l), ih (fun c hc => h c (List.mem_cons_of_mem a hc))]

/-- C7 counterexample: `"Water" {} x` carries trailing unconsumed bytes
after the top-level closing brace, yet parsing succeeds — the iterator
stops at the top-level closing brace without checking what is left (the
`TODO` at vmt/src/lib.rs:772). -/
theorem C7_counterexample :
    VMT.fromBytes ("\"Water\" \x7b\x7d x".toList) = .ok { shaderName := .water } := by
  rfl

/-- C7 (amended): an unterminated quoted string (any input opening a
quote that never closes) and an unterminated brace are parse-error
values; but trailing unconsumed bytes after the top-level closing brace
are accepted without error, for any trailing bytes; and a missing shader
name (empty input) hits the unknown-shader-name panic instead of
returning the `MissingShaderName` error value. -/
theorem C7_parse_errors :
    (∀ s : BStr, '"' ∉ s → VMT.fromBytes ('"' :: s) = .err .noStringEnd) ∧
    VMT.fromBytes ("\"Water\" \x7b".toList) = .err .unexpectedEof ∧
    (∀ junk : BStr,
        VMT.fromBytes ("\"Water\" \x7b\x7d".toList ++ junk) = .ok { shaderName := .water }) ∧
    VMT.fromBytes [] = .panicked .unknownShaderName := by
  refine ⟨?_, rfl, fun _ => rfl, rfl⟩
  intro s hs
  have hfind : s.findIdx? (fun c => c = '"') = none := by
    refine findIdx?_eq_none_of _ s (fun c hc => ?_)
    simp only [decide_eq_false_iff_not]
    exact fun hq => hs (hq ▸ hc)
  simp [VMT.fromBytes, takeText, takeStr, hfind]

/-- C7 witness: the amended statement at concrete inputs — the
unterminated string input errors, and trailing bytes after the closing
brace parse cleanly. -/
theorem C7_parse_errors_witness :
    VMT.fromBytes ('"' :: "Wat".toList) = .err .noStringEnd ∧
    VMT.fromBytes ("\"Water\" \x7b\x7d".toList ++ "zz".toList) = .ok { shaderName := .water } := by
  exact ⟨C7_parse_errors.1 ("Wat".toList) (by decide), C7_parse_errors.2.2.1 ("zz".toList)⟩

/-- Length of a `flatMap` whose pieces all have the same length. -/
theorem length_flatMap_const {α β : Type} (l : List α) (f : α → List β) (n : ℕ)
    (h : ∀ a ∈ l, (f a).length = n) : (l.flatMap f).length = l.length * n := by
  induction l with
  | nil => simp
  | cons a t ih =>
    have ha := h a (List.mem_cons_self a t)
    have ht := ih (fun b hb => h b (List.mem_cons_of_mem a hb))
    simp only [List.flatMap_cons, List.length_append, List.length_cons, ha, ht]
    ring

/-- The scan step keeps a best candidate once one exists. -/
theorem baseCornerStep_isSome (lb : Vec3) (acc : ℕ × Option (ℕ × ℚ)) (v : Vec3)
    (h : acc.2.isSome = true) : ((baseCornerStep lb acc v).2).isSome = true := by
  obtain ⟨i, o⟩ := acc
  cases o with
  | none => simp at h
  | some pr =>
    obtain ⟨bi, bd⟩ := pr
    simp only [baseCornerStep]
    split <;> simp

/-- Folding the scan step from a state with a candidate keeps one. -/
theorem baseCornerFold_isSome (lb : Vec3) (t : List Vec3) :
    ∀ (acc : ℕ × Option (ℕ × ℚ)), acc.2.isSome = true →
      ((t.foldl (baseCornerStep lb) acc).2).isSome = true := by
  induction t with
  | nil => intro acc h; simpa using h
  | cons a t ih =>
    intro acc h
    exact ih _ (baseCornerStep_isSome lb acc a h)

/-- A nonempty corner loop always yields a base corner (the scan starts
from an infinite best distance). -/
theorem baseCornerScan_isSome (lb : Vec3) (l : List Vec3) (hne : l ≠ []) :
    ∃ i, baseCornerScan lb l = some i := by
  cases l with
  | nil => exact absurd rfl hne
  | cons a t =>
    have hstep : (baseCornerStep lb (0, none) a).2.isSome = true := by
      simp [baseCornerStep]
    have := baseCornerFold_isSome lb t (baseCornerStep lb (0, none) a) hstep
    unfold baseCornerScan
    rw [List.foldl_cons]
    obtain ⟨pr, hpr⟩ := Option.isSome_iff_exists.mp this
    exact ⟨pr.1, by rw [hpr]; rfl⟩

/-- `(2 << (p-1)) + 1 = 2^p + 1` for displacement powers `p ≥ 1`. -/
theorem vertsWide_eq (p : ℕ) (hp : 1 ≤ p) : vertsWide p = 2 ^ p + 1 := by
  unfold vertsWide
  rw [Nat.shiftLeft_eq]
  have h2 : (2 : ℕ) * 2 ^ (p - 1) = 2 ^ (p - 1 + 1) := (pow_succ' 2 (p - 1)).symm
  rw [h2, Nat.sub_add_cancel hp]

/-- The interpolated grid has exactly `w * w` vertices. -/
theorem dispGrid_length (lb hb hr lr : Vec3) (w : ℕ) (vert : ℕ → DispVert) :
    (dispGrid lb hb hr lr w vert).length = w * w := by
  unfold dispGrid
  rw [length_flatMap_const _ _ w (fun a _ => by simp)]
  simp

/-- Each 2×2 cell emits exactly two triangles (six entries). -/
theorem dispCell_length (grid : List Vec3) (w x y : ℕ) :
    (dispCell grid w x y).length = 6 := by
  by_cases h : (x + y * w) % 2 ≠ 0 <;> simp [dispCell, h]

/-- The triangle list has `(w-1)² * 6` entries. -/
theorem dispTris_length (grid : List Vec3) (w : ℕ) :
    (dispTris grid w).length = (w - 1) * ((w - 1) * 6) := by
  unfold dispTris
  exact length_flatMap_const _ _ ((w - 1) * 6)
    (fun y _ => by
      rw [length_flatMap_const _ _ 6 (fun x _ => dispCell_length grid w x y)]
      simp)
    |>.trans (by simp)

/-- C9: for a displacement of power `1 ≤ p ≤ 4` over a quadrilateral
base face with its stored vertex data present, mesh reconstruction
produces a `(2^p+1) × (2^p+1)` grid of vertices and exactly
`2·(2^p)²` triangles, i.e. `6·(2^p)²` emitted position entries (and as
many per-vertex normal entries). -/
theorem C9_displacement_counts (inp : DispInput) (p : ℕ)
    (hp : inp.power = p) (h1 : 1 ≤ p) (h4 : p ≤ 4)
    (hc : inp.corners.length = 4)
    (hdv : inp.dispVertexStart + vertsWide p * vertsWide p ≤ inp.dispVerts.length) :
    ∃ m, createDisplacementMesh inp = .ok m ∧
      m.grid.length = (2 ^ p + 1) * (2 ^ p + 1) ∧
      m.positions.length = 6 * (2 ^ p * 2 ^ p) ∧
      m.normals.length = 6 * (2 ^ p * 2 ^ p) := by
  subst hp
  obtain ⟨i, hscan⟩ :=
    baseCornerScan_isSome inp.startPosition inp.corners
      (by intro hnil; rw [hnil] at hc; simp at hc)
  have hw := vertsWide_eq inp.power h1
  unfold createDisplacementMesh
  rw [if_neg (by simp [hc])]
  simp only [hscan]
  rw [if_pos hdv]
  refine ⟨_, rfl, ?_, ?_, ?_⟩
  · dsimp only
    rw [dispGrid_length, hw]
  · dsimp only
    rw [List.length_map, dispTris_length, hw]
    simp only [Nat.add_sub_cancel]
    ring
  · dsimp only
    rw [List.length_map, dispTris_length, hw]
    simp only [Nat.add_sub_cancel]
    ring

/-- C9 witness: a power-2 displacement over a quad with 25 stored
vertices — a 5×5 = 25-vertex grid, 96 = 6·16 position entries (32
triangles). -/
theorem C9_displacement_counts_witness :
    ∃ m, createDisplacementMesh c9Inp = .ok m ∧
      m.grid.length = 25 ∧ m.positions.length = 96 ∧ m.normals.length = 96 := by
  obtain ⟨m, hm, hg, hp, hn⟩ :=
    C9_displacement_counts c9Inp 2 rfl (by decide) (by decide) (by decide) (by decide)
  exact ⟨m, hm, by simpa using hg, by simpa using hp, by simpa using hn⟩

/-- `procList` splits over list append. -/
theorem procList_append (l1 l2 : List VMTItem) : ∀ st : ProcSt,
    procList st (l1 ++ l2) = (procList st l1).bind (fun s => procList s l2) := by
  induction l1 with
  | nil => intro st; simp [procList, PRes.bind]
  | cons it t ih =>
    intro st
    simp only [List.cons_append, procList]
    cases procItem st it with
    | ok st2 => simp [PRes.bind, ih]
    | err e => simp [PRes.bind]
    | panicked tg => simp [PRes.bind]

/-- A `$basetexture` key hits the first entry of the dispatch table. -/
theorem find_bt_action (k : BStr) (hbt : eqIgnoreCase k ("$basetexture".toList) = true) :
    recognizedActions.find? (fun p => eqIgnoreCase k p.1) =
      some (("$basetexture".toList),
        fun v val => .ok { v with baseTexture := some val }) := by
  unfold recognizedActions
  apply List.find?_cons_of_pos
  simpa using hbt

/-- Processing a `$basetexture` key/value (also inside a sub block)
assigns the top-level `base_texture` field to that value. -/
theorem procItem_keyValue_bt (st st' : ProcSt) (k v : BStr)
    (hbt : eqIgnoreCase k ("$basetexture".toList) = true)
    (h : procItem st (.keyValue k v) = .ok st') :
    st'.vmt.baseTexture = some v := by
  have hgen : ∀ W : PRes (VMTError Unit) VMT,
      (W.bind fun vm =>
        match procKeyValue vm k v with
        | .ok v' => .ok { st with vmt := v' }
        | .error e => .err e) = .ok st' →
      st'.vmt.baseTexture = some v := by
    intro W hW
    cases W with
    | ok v1 =>
      simp only [PRes.bind, procKeyValue, find_bt_action k hbt] at hW
      cases hW
      rfl
    | err e => simp [PRes.bind] at hW
    | panicked tg => simp [PRes.bind] at hW
  simp only [procItem] at h
  exact hgen _ h

/-- The dispatch table leaves `base_texture` untouched for any key that
is not `$basetexture` (every other action writes a different field, and
an unrecognized key goes to the `other` bag). -/
theorem procKeyValue_preserves_bt (vm v' : VMT) (k val : BStr)
    (hbt : eqIgnoreCase k ("$basetexture".toList) = false)
    (h : procKeyValue vm k val = .ok v') :
    v'.baseTexture = vm.baseTexture := by
  unfold procKeyValue at h
  cases hf : recognizedActions.find? (fun p => eqIgnoreCase k p.1) with
  | none => rw [hf] at h; cases h; rfl
  | some p =>
    rw [hf] at h
    have hkey := List.find?_some hf
    have hmem := List.mem_of_find?_eq_some hf
    simp only [recognizedActions, List.mem_cons, List.not_mem_nil, or_false] at hmem
    rcases hmem with rfl | rfl | rfl | rfl | rfl | rfl | rfl | rfl | rfl | rfl | rfl | rfl |
      rfl | rfl | rfl | rfl | rfl | rfl | rfl | rfl | rfl | rfl | rfl | rfl
    all_goals
      first
      | (have hkx : eqIgnoreCase k ("$basetexture".toList) = true := by simpa using hkey
         rw [hkx] at hbt
         exact Bool.noConfusion hbt)
      | (dsimp only at h
         repeat' split at h
         all_goals first | (cases h; rfl) | exact Except.noConfusion h)

/-- Processing any item that is not a `$basetexture` key/value leaves
the top-level `base_texture` field unchanged. -/
theorem procItem_preserves_bt (st st' : ProcSt) (it : VMTItem)
    (hno : ∀ k v, it = .keyValue k v → eqIgnoreCase k ("$basetexture".toList) = false)
    (h : procItem st it = .ok st') :
    st'.vmt.baseTexture = st.vmt.baseTexture := by
  cases it with
  | shaderName s => simp [procItem] at h
  | comment c => simp only [procItem] at h; cases h; rfl
  | endSub =>
    simp only [procItem] at h
    cases hsp : st.subPath with
    | nil => rw [hsp] at h; simp at h
    | cons a t => rw [hsp] at h; cases h; rfl
  | keySub name =>
    simp only [procItem] at h
    by_cases h16 : 16 ≤ st.subPath.length
    · rw [if_pos h16] at h; simp at h
    · rw [if_neg h16] at h
      cases he : subsEnsure st.vmt.sub (st.subPath ++ [lowerStr name]) with
      | ok s => rw [he] at h; simp only [PRes.map] at h; cases h; rfl
      | err e => rw [he] at h; simp [PRes.map] at h
      | panicked tg => rw [he] at h; simp [PRes.map] at h
  | keyValue k v =>
    have hbt := hno k v rfl
    simp only [procItem] at h
    have hgen : ∀ (W : PRes (VMTError Unit) VMT),
        (∀ v1, W = .ok v1 → v1.baseTexture = st.vmt.baseTexture) →
        (W.bind fun vm =>
          match procKeyValue vm k v with
          | .ok v' => .ok { st with vmt := v' }
          | .error e => .err e) = .ok st' →
        st'.vmt.baseTexture = st.vmt.baseTexture := by
      intro W hWbt hW
      cases W with
      | ok v1 =>
        simp only [PRes.bind] at hW
        cases hkv : procKeyValue v1 k v with
        | ok v2 =>
          rw [hkv] at hW
          cases hW
          have := procKeyValue_preserves_bt v1 v2 k v hbt hkv
          simpa [this] using hWbt v1 rfl
        | error e => rw [hkv] at hW; simp at hW
      | err e => simp [PRes.bind] at hW
      | panicked tg => simp [PRes.bind] at hW
    refine hgen _ ?_ h
    intro v1 hv1
    by_cases hemp : st.subPath.isEmpty
    · rw [if_pos hemp] at hv1; cases hv1; rfl
    · rw [if_neg hemp] at hv1
      cases hi : subsInsertVal st.vmt.sub st.subPath (lowerStr k) v with
      | ok s => rw [hi] at hv1; simp only [PRes.map] at hv1; cases hv1; rfl
      | err e => rw [hi] at hv1; simp [PRes.map] at hv1
      | panicked tg => rw [hi] at hv1; simp [PRes.map] at hv1

/-- Processing a run of items none of which is a `$basetexture`
key/value preserves the top-level `base_texture` field. -/
theorem procList_preserves_bt (l : List VMTItem) : ∀ (st out : ProcSt),
    noBaseTexKey l = true → procList st l = .ok out →
    out.vmt.baseTexture = st.vmt.baseTexture := by
  induction l with
  | nil => intro st out _ h; cases h; rfl
  | cons it t ih =>
    intro st out hno h
    simp only [noBaseTexKey, List.all_cons, Bool.and_eq_true] at hno
    simp only [procList] at h
    cases h1 : procItem st it with
    | ok st1 =>
      rw [h1] at h
      simp only [PRes.bind] at h
      have hit : ∀ k v, it = .keyValue k v →
          eqIgnoreCase k ("$basetexture".toList) = false := by
        intro k v hkv
        subst hkv
        simpa using hno.1
      have h2 := procItem_preserves_bt st st1 it hit h1
      have h3 := ih st1 out (by simpa [noBaseTexKey] using hno.2) h
      rw [h3, h2]
    | err e => rw [h1] at h; simp [PRes.bind] at h
    | panicked tg => rw [h1] at h; simp [PRes.bind] at h

/-- C10: a recognized key inside a nested sub block is not confined to
the sub tree — processing a `$basetexture` key/value anywhere in the
item stream sets the top-level field, and the last such occurrence
determines its final value; concretely, a document whose `$basetexture`
appears only inside a `Proxies` block ends up with both the sub-tree
entry and the top-level `base_texture` assigned. -/
theorem C10_nested_recognized_keys :
    (∀ (st out : ProcSt) (l1 l2 : List VMTItem) (k v : BStr),
        eqIgnoreCase k ("$basetexture".toList) = true →
        noBaseTexKey l2 = true →
        procList st (l1 ++ .keyValue k v :: l2) = .ok out →
        out.vmt.baseTexture = some v) ∧
    (∃ vmt, VMT.fromBytes c10Bytes = .ok vmt ∧
        vmt.baseTexture = some ("x/y".toList) ∧
        (match alGet vmt.sub ("proxies".toList) with
         | some (.sub entries) => alGet entries ("$basetexture".toList)
         | _ => none) = some (.val ("x/y".toList))) := by
  constructor
  · intro st out l1 l2 k v hbt hno h
    rw [procList_append] at h
    cases h1 : procList st l1 with
    | ok st1 =>
      rw [h1] at h
      simp only [PRes.bind] at h
      simp only [procList] at h
      cases h2 : procItem st1 (.keyValue k v) with
      | ok st2 =>
        rw [h2] at h
        simp only [PRes.bind] at h
        rw [procList_preserves_bt l2 st2 out hno h]
        exact procItem_keyValue_bt st1 st2 k v hbt h2
      | err e => rw [h2] at h; simp [PRes.bind] at h
      | panicked tg => rw [h2] at h; simp [PRes.bind] at h
    | err e => rw [h1] at h; simp [PRes.bind] at h
    | panicked tg => rw [h1] at h; simp [PRes.bind] at h
  · exact ⟨_, rfl, rfl, rfl⟩

/-- C10 witness: the general statement applied at a two-item stream — a
cased `$BaseTexture` assignment followed by a comment yields a document
whose top-level base texture is the assigned value. -/
theorem C10_nested_recognized_keys_witness :
    procList ⟨{}, []⟩
        [.keyValue ("$BaseTexture".toList) ("z".toList), .comment ("c".toList)] =
      .ok ⟨{ baseTexture := some ("z".toList) }, []⟩ ∧
    (⟨{ baseTexture := some ("z".toList) }, []⟩ : ProcSt).vmt.baseTexture =
      some ("z".toList) := by
  refine ⟨rfl, ?_⟩
  exact C10_nested_recognized_keys.1 ⟨{}, []⟩ _ [] [.comment ("c".toList)]
    ("$BaseTexture".toList) ("z".toList) (by decide) (by decide) rfl

end Quell
